import Mathlib

/-!
Verification development for the FreeCAD-Ribbon binding (FCBinding.py).

The single source file defines class ModernMenu, a RibbonBar subclass that
rebuilds the host CAD application's per-workbench toolbars as ribbon panels.
We embed its data model and methods shallowly: the live Qt/FreeCAD object
graph (tab bar, workbenches, toolbars, tool buttons, actions, the module
level retry timer) becomes an explicit `State` record, mutation becomes
state passing, calls into the host that have effects outside this state are
recorded in an `Event` trace, and Python exceptions (KeyError propagating
out of a method) become `Option` results.  Python dictionaries are embedded
as insertion-ordered association lists, Python strings as Lean strings with
character-list helpers mirroring the semantics of the Python methods used
(`str.replace`, `str.split`, `str.endswith`, `os.path.join`), and Python's
stable `list.sort(key=...)` as a stable insertion sort on an integer key.
-/

namespace FCRibbon

/-! ## Association lists: Python dict reads and writes -/

/-- Read of a Python dict (`d[k]` / `k in d`): first binding of the key wins. -/
def alGet {κ α : Type} [BEq κ] (d : List (κ × α)) (k : κ) : Option α :=
  match d with
  | [] => none
  | p :: rest => if p.1 == k then some p.2 else alGet rest k

/-- Write of a Python dict (`d[k] = v`): replaces the first binding in place,
otherwise appends, matching insertion-ordered dict update. -/
def alInsert {κ α : Type} [BEq κ] (d : List (κ × α)) (k : κ) (v : α) : List (κ × α) :=
  match d with
  | [] => [(k, v)]
  | p :: rest => if p.1 == k then (k, v) :: rest else p :: alInsert rest k v

/-! ## String helpers with the semantics of the Python methods used -/

/-- Split a character list at every occurrence of a separator character,
as Python `str.split(sep)` for a one-character separator: the empty string
splits to a single empty field. -/
def splitChar (c : Char) : List Char → List (List Char)
  | [] => [[]]
  | x :: xs =>
    if x == c then [] :: splitChar c xs
    else
      match splitChar c xs with
      | [] => [[x]]
      | h :: t => (x :: h) :: t

/-- Python `s.split(",")`. -/
def pySplitComma (s : String) : List String :=
  (splitChar ',' s.toList).map String.mk

/-- Replace every non-overlapping occurrence of a non-empty pattern,
left to right, as Python `str.replace`; the fuel argument (instantiated with
the length of the list) keeps the recursion structural so that terms reduce. -/
def replaceChars (pat rep : List Char) : Nat → List Char → List Char
  | 0, l => l
  | _ + 1, [] => []
  | fuel + 1, x :: xs =>
    if pat ≠ [] ∧ pat.isPrefixOf (x :: xs) then
      rep ++ replaceChars pat rep fuel ((x :: xs).drop pat.length)
    else
      x :: replaceChars pat rep fuel xs

/-- Python `s.replace(pat, rep)` for a non-empty pattern. -/
def pyReplace (s pat rep : String) : String :=
  String.mk (replaceChars pat.toList rep.toList s.toList.length s.toList)

/-- Python `s.endswith(suffix)`. -/
def pyEndsWith (s suffix : String) : Bool :=
  suffix.toList.isSuffixOf s.toList

/-- Python `s.startswith(pre)`. -/
def pyStartsWith (s pre : String) : Bool :=
  pre.toList.isPrefixOf s.toList

/-- Python `os.path.join(a, b)` for POSIX paths: an absolute second component
replaces the first, and a trailing separator on the first is not doubled. -/
def joinPath (a b : String) : String :=
  if pyStartsWith b "/" then b
  else if a == "" then b
  else if pyEndsWith a "/" then a ++ b
  else a ++ "/" ++ b

/-! ## Stable sort by an integer key (Python `list.sort(key=...)`) -/

/-- Insert an element after every already-placed element whose key is not
greater, so that elements with equal keys keep their original order. -/
def insertByKey {α : Type} (key : α → Int) (x : α) : List α → List α
  | [] => [x]
  | y :: ys => if key y ≤ key x then y :: insertByKey key x ys else x :: y :: ys

/-- Stable sort by key, as Python `list.sort(key=...)`: a stable sorted
permutation is unique, so any stable sorting algorithm computes this. -/
def stableSortByKey {α : Type} (key : α → Int) (l : List α) : List α :=
  l.foldl (fun acc x => insertByKey key x acc) []

/-! ## The embedded object graph -/

/-- A host workbench as seen through `Gui.listWorkbenches()` /
`Gui.activeWorkbench()`: its internal name, its `MenuText`, its icon,
whether the lazily created `__Workbench__` attribute exists yet, and the
result of `listToolbars()`. -/
structure Workbench where
  name : String
  MenuText : String
  Icon : String
  hasWorkbenchAttr : Bool
  toolbars : List String
deriving DecidableEq

/-- The mutable data of a `QAction` object read by the binding:
`text()`, `icon()` (`none` embeds Python `None`), `data()` (`none` embeds the
default `None` payload). Actions are identified by a numeric object id so
that distinct buttons can share the very same action object. -/
structure ActionData where
  text : String
  icon : Option String
  data : Option String
deriving DecidableEq

/-- A `QToolButton` found inside a host `QToolBar`: the id of its
`defaultAction()` and whether `menu()` is non-None. A tool button's `text()`
always mirrors its default action's text (Qt keeps them in sync; the code
comment at the `action.setText` call relies on exactly this). -/
structure SrcButton where
  actionId : Nat
  hasMenu : Bool
deriving DecidableEq

/-- A host `QToolBar` from `mw.findChildren(QToolBar, ...)`. -/
structure HostToolbar where
  objectName : String
  buttons : List SrcButton
  visible : Bool
deriving DecidableEq

/-- Per-command entry of `RibbonStructure.json` under
`workbenches/<wb>/toolbars/<tb>/commands/<data>`: optional replacement
text, icon and size. Absent key = `none` (a lookup raises KeyError). -/
structure CommandConfig where
  text : Option String
  icon : Option String
  size : Option String
deriving DecidableEq

/-- Per-toolbar entry of the JSON: optional button `order` list and the
`commands` table keyed by `action.data()`. -/
structure ToolbarConfig where
  order : Option (List String)
  commands : List (String × CommandConfig)
deriving DecidableEq

/-- Per-workbench entry of the JSON: the optional `toolbars/order` list and
the per-toolbar entries of the `toolbars` table. -/
structure WorkbenchConfig where
  toolbarsOrder : Option (List String)
  toolbars : List (String × ToolbarConfig)
deriving DecidableEq

/-- One custom panel under `customToolbars/<wb>/<panel>`: its `commands`
table maps a command's menu text to the original toolbar holding it. -/
structure CustomPanelConfig where
  commands : List (String × String)
deriving DecidableEq

/-- The parsed `RibbonStructure.json`. -/
structure RibbonStructure where
  quickAccessCommands : List String
  ignoredWorkbenches : List String
  ignoredToolbars : List String
  customToolbars : List (String × List (String × CustomPanelConfig))
  workbenches : List (String × WorkbenchConfig)
deriving DecidableEq

/-- Ribbon button size category chosen in `buildPanels`. -/
inductive ButtonSize
  | small
  | medium
  | large
deriving DecidableEq

/-- A button added to a ribbon panel by `panel.addSmallButton` /
`addMediumButton` / `addLargeButton` followed by `setDefaultAction`. -/
structure RibbonButton where
  text : String
  icon : Option String
  size : ButtonSize
  showText : Bool
  fixedHeight : Option Nat
  actionId : Nat
  hasMenu : Bool
deriving DecidableEq

/-- A ribbon panel added to the current category: the category's tab label,
the toolbar name it was created from (the `title=` argument of `addPanel`),
its final title (a trailing `_custom` is stripped), and its buttons. -/
structure Panel where
  category : String
  sourceToolbar : String
  title : String
  buttons : List RibbonButton
deriving DecidableEq

/-- A slot connectable to the module-level timer's `timeout` signal. -/
inductive HandlerTag
  | onWbActivatedTag
deriving DecidableEq

/-- The module-level `QTimer`: single-shot flag, interval, whether
`start` was called, and the list of connected slots (Qt `connect` adds a
connection each time it is called). -/
structure TimerState where
  singleShot : Bool
  interval : Nat
  active : Bool
  connected : List HandlerTag
deriving DecidableEq

/-- Host-API calls with effects outside the embedded state, recorded in
order of occurrence. -/
inductive Event
  | activateWorkbench (name : String)
  | timerStart (ms : Nat)
  | buildPanelsCalled
  | loadRibbonStructure
  | createModernMenuCalled
  | onUserChangedCalled
  | callDesignMain
  | callSettingsMain
  | loadFile (path : String)
deriving DecidableEq

/-- The `Parameters_Ribbon` preference constants read while building
buttons and styling the ribbon. -/
structure RibbonParams where
  showIconTextSmall : Bool
  showIconTextMedium : Bool
  showIconTextLarge : Bool
  iconSizeSmall : Nat
  iconSizeMedium : Nat
  autoHide : Bool
  styleSheet : String
deriving DecidableEq

/-- The whole embedded state: the ModernMenu widget data (tab bar labels,
current index as in Qt with -1 for none, the `wbNameMapping` and
`isWbLoaded` class dicts, quick access buttons, built panels, timer,
stylesheet, `MainWindowLoaded`) together with the host object graph it
reads (workbenches, the active workbench, main-window toolbars, the action
object store, the custom-toolbar parameter groups, the command table from
`Gui.listCommands`/`getInfo`, the `Gui.getIcon` table, the per-command
action lists from `Gui.Command.get(...).getAction()`, the `Ordered`
workbench preference string, the scripts directory) and the parsed JSON. -/
structure State where
  tabs : List String
  currentIndex : Int
  wbNameMapping : List (String × String)
  isWbLoaded : List (String × Bool)
  workbenches : List Workbench
  activeWb : Workbench
  mwToolbars : List HostToolbar
  actions : List (Nat × ActionData)
  hostCustomToolbars : List (String × List String)
  hostCommands : List (String × String)
  hostIcons : List (String × String)
  commandActions : List (String × List Nat)
  hostOrdered : String
  pathScripts : String
  ribbonStructure : RibbonStructure
  params : RibbonParams
  panels : List Panel
  quickAccessButtons : List Nat
  timer : TimerState
  autoHideRibbon : Bool
  styleSheet : String
  mainWindowLoaded : Bool
  events : List Event
deriving DecidableEq

/-! ## Reads of the action store and the tab bar -/

/-- Look up an action object by id; ids are always present in the store,
the default is only for totality. -/
def getAction (acts : List (Nat × ActionData)) (i : Nat) : ActionData :=
  (alGet acts i).getD { text := "", icon := none, data := none }

/-- `button.text()`: a QToolButton's text mirrors its default action's. -/
def buttonText (acts : List (Nat × ActionData)) (b : SrcButton) : String :=
  (getAction acts b.actionId).text

/-- `action.setText(t)` on the action object with the given id. -/
def setActionText (acts : List (Nat × ActionData)) (i : Nat) (t : String) :
    List (Nat × ActionData) :=
  acts.map (fun p => if p.1 == i then (p.1, { p.2 with text := t }) else p)

/-- `action.setIcon(v)` on the action object with the given id. -/
def setActionIcon (acts : List (Nat × ActionData)) (i : Nat) (v : Option String) :
    List (Nat × ActionData) :=
  acts.map (fun p => if p.1 == i then (p.1, { p.2 with icon := v }) else p)

/-- `Gui.getIcon(name)`: returns the host icon, a null icon otherwise. -/
def lookupIcon (hostIcons : List (String × String)) (name : String) : String :=
  (alGet hostIcons name).getD ""

/-- `tabBar().tabText(i)`: empty for an out-of-range or -1 index, as Qt. -/
def tabText (tabs : List String) (i : Int) : String :=
  if 0 ≤ i then (tabs.get? i.toNat).getD "" else ""

/-- The current tab's text with every ampersand removed, as computed at the
top of `onUserChangedWorkbench` and of `buildPanels`. -/
def currentTabName (tabs : List String) (i : Int) : String :=
  pyReplace (tabText tabs i) "&" ""

/-- `tabBar().indexOf(text)`: index of the first tab with that exact label,
-1 when there is none. -/
def tabIndexOf (tabs : List String) (text : String) : Int :=
  match tabs.findIdx? (fun t => t == text) with
  | some i => (i : Int)
  | none => -1

/-! ## The inputs `buildPanels` reads

`buildPanels` and its helpers read exactly these parts of the state; the
record makes the read set explicit and is filled from a `State` by
`buildEnv`. -/

structure BuildEnv where
  activeWb : Workbench
  tabs : List String
  currentIndex : Int
  isWbLoaded : List (String × Bool)
  workbenches : List Workbench
  mwToolbars : List HostToolbar
  actions : List (Nat × ActionData)
  hostCustomToolbars : List (String × List String)
  hostCommands : List (String × String)
  hostIcons : List (String × String)
  rs : RibbonStructure
  params : RibbonParams
deriving DecidableEq

def buildEnv (s : State) : BuildEnv :=
  { activeWb := s.activeWb
    tabs := s.tabs
    currentIndex := s.currentIndex
    isWbLoaded := s.isWbLoaded
    workbenches := s.workbenches
    mwToolbars := s.mwToolbars
    actions := s.actions
    hostCustomToolbars := s.hostCustomToolbars
    hostCommands := s.hostCommands
    hostIcons := s.hostIcons
    rs := s.ribbonStructure
    params := s.params }

/-! ## `List_ReturnCustomToolbars` and `List_AddCustomToolbarsToWorkbench` -/

/-- `List_ReturnCustomToolbars`: the `(Name, WorkBenchName)` pairs of the
custom toolbars recorded in the host parameter groups of every workbench.
The source guard `str(WorkBenchName) != "" or WorkBenchName is not None` is
vacuously true for the non-null string keys of `Gui.listWorkbenches()`, so
only the `NoneWorkbench` test filters. -/
def List_ReturnCustomToolbars (env : BuildEnv) : List (String × String) :=
  env.workbenches.foldl
    (fun acc wb =>
      if wb.name != "" || true then
        if wb.name != "NoneWorkbench" then
          acc ++ ((alGet env.hostCustomToolbars wb.name).getD []).map (fun nm => (nm, wb.name))
        else acc
      else acc)
    []

/-- `List_AddCustomToolbarsToWorkbench(WorkBenchName, CustomToolbar)`:
for every `menuText -> original toolbar` entry of the custom panel, every
command whose `getInfo()["menuText"]` matches contributes the buttons of
the first main-window toolbar with the original toolbar's name whose text
equals that menu text; missing JSON keys or a missing toolbar are caught
(`except: pass` / `except: continue`) and contribute nothing. -/
def List_AddCustomToolbarsToWorkbench (env : BuildEnv) (acts : List (Nat × ActionData))
    (WorkBenchName CustomToolbar : String) : List SrcButton :=
  match (alGet env.rs.customToolbars WorkBenchName).bind
      (fun panels => alGet panels CustomToolbar) with
  | none => []
  | some cfg =>
    cfg.commands.foldl
      (fun acc kv =>
        env.hostCommands.foldl
          (fun acc2 cmd =>
            if cmd.2 == kv.1 then
              match env.mwToolbars.find? (fun tb => tb.objectName == kv.2) with
              | none => acc2
              | some tb => acc2 ++ tb.buttons.filter (fun b => buttonText acts b == cmd.2)
            else acc2)
          acc)
      []

/-! ## The toolbar list assembled at the top of `buildPanels` -/

/-- Sort key of the inner `SortToolbars`: empty name first, then the
position in the JSON toolbar order, unknown toolbars at 999999. -/
def toolbarSortKey (ToolbarOrder : List String) (toolbar : String) : Int :=
  if toolbar == "" then -1
  else
    match ToolbarOrder.findIdx? (fun x => x == toolbar) with
    | some i => (i : Int)
    | none => 999999

/-- The `ListToolbars` value as it stands when the panel loop starts:
`workbench.listToolbars()`, plus the custom toolbars of this workbench,
plus the JSON custom panels (each removing the first occurrence of every
original toolbar named in its commands), then stably sorted by the JSON
toolbar order when one exists (a missing JSON key skips the step). -/
def listToolbarsFor (env : BuildEnv) : List String :=
  let workbenchName := env.activeWb.name
  let lt1 := env.activeWb.toolbars ++
    ((List_ReturnCustomToolbars env).filter (fun p => p.2 == workbenchName)).map
      (fun p => p.1)
  let lt2 :=
    match alGet env.rs.customToolbars workbenchName with
    | none => lt1
    | some panels =>
      panels.foldl
        (fun acc p =>
          (p.2.commands.foldl (fun acc2 kv => acc2.erase kv.2) (acc ++ [p.1])))
        lt1
  match (alGet env.rs.workbenches workbenchName).bind (fun w => w.toolbarsOrder) with
  | none => lt2
  | some ToolbarOrder => stableSortByKey (toolbarSortKey ToolbarOrder) lt2

/-! ## Collecting and ordering the buttons of one toolbar -/

/-- The JSON command entry for an action: the chained lookups
`ribbonStructure["workbenches"][wb]["toolbars"][tb]["commands"][data]`,
where a missing key at any level (including a `None` action payload)
raises the KeyError the per-field `except` clauses catch. -/
def commandConfig (rs : RibbonStructure) (workbenchName toolbar : String)
    (data : Option String) : Option CommandConfig :=
  match data with
  | none => none
  | some d =>
    ((alGet rs.workbenches workbenchName).bind
      (fun w => alGet w.toolbars toolbar)).bind
      (fun t => alGet t.commands d)

/-- The JSON button order for a toolbar; the source's two membership tests
(`toolbar in ...["toolbars"] and "order" in ...[toolbar]`) collapse to this
option chain. -/
def buttonOrderFor (env : BuildEnv) (toolbar : String) : Option (List String) :=
  ((alGet env.rs.workbenches env.activeWb.name).bind
    (fun w => alGet w.toolbars toolbar)).bind
    (fun t => t.order)

/-- Sort key of the inner `sortButtons`: empty-text buttons first, then the
position of the default action's text in the JSON order, else 999999. -/
def buttonSortKey (acts : List (Nat × ActionData)) (positionsList : List String)
    (button : SrcButton) : Int :=
  if buttonText acts button == "" then -1
  else
    match positionsList.findIdx? (fun x => x == (getAction acts button.actionId).text) with
    | some i => (i : Int)
    | none => 999999

/-- The `allButtons` list for one toolbar: the QToolButton children of the
first main-window toolbar with that name (none found: the IndexError on
`TB[0]` is caught and the list stays empty), extended with the custom
buttons, then stably sorted when the JSON defines a button order. -/
def allButtonsFor (env : BuildEnv) (acts : List (Nat × ActionData)) (toolbar : String) :
    List SrcButton :=
  let base :=
    match env.mwToolbars.find? (fun tb => tb.objectName == toolbar) with
    | none => []
    | some tb => tb.buttons
  let all := base ++ List_AddCustomToolbarsToWorkbench env acts env.activeWb.name toolbar
  match buttonOrderFor env toolbar with
  | none => all
  | some positionsList => stableSortByKey (buttonSortKey acts positionsList) all

/-! ## Processing one source button -/

/-- Accumulator of the button loop: the action store (actions are mutated
in place), the `shadowList` of already-added texts, and the ribbon buttons
added to the panel so far. -/
structure BtnAcc where
  actions : List (Nat × ActionData)
  shadow : List String
  out : List RibbonButton
deriving DecidableEq

/-- The ribbon button built by `addSmallButton` / `addMediumButton` /
`addLargeButton` (text and icon are the action's current ones, display
parameters come from `Parameters_Ribbon`) followed by
`btn.setDefaultAction(action)` and the dropdown-menu setup. -/
def makeRibbonButton (params : RibbonParams) (acts : List (Nat × ActionData))
    (a : Nat) (size : ButtonSize) (button : SrcButton) : RibbonButton :=
  { text := (getAction acts a).text
    icon := (getAction acts a).icon
    size := size
    showText :=
      match size with
      | .small => params.showIconTextSmall
      | .medium => params.showIconTextMedium
      | .large => params.showIconTextLarge
    fixedHeight :=
      match size with
      | .small => some params.iconSizeSmall
      | .medium => some params.iconSizeMedium
      | .large => none
    actionId := a
    hasMenu := button.hasMenu }

/-- The action store after the `action.setText` attempt: the text from the
JSON command entry replaces the action's text, a KeyError keeps it. -/
def textStep (cfg : Option CommandConfig) (acts : List (Nat × ActionData)) (a : Nat) :
    List (Nat × ActionData) :=
  match cfg.bind (fun c => c.text) with
  | some t => setActionText acts a t
  | none => acts

/-- The action store after the alternative-icon attempt: a non-empty icon
name from the JSON is resolved through `Gui.getIcon` and set, a KeyError or
an empty name keeps the icon. -/
def iconStep (env : BuildEnv) (cfg : Option CommandConfig)
    (acts : List (Nat × ActionData)) (a : Nat) : List (Nat × ActionData) :=
  match cfg.bind (fun c => c.icon) with
  | some icon_Json =>
    if icon_Json != "" then setActionIcon acts a (some (lookupIcon env.hostIcons icon_Json))
    else acts
  | none => acts

/-- A successful `addSmallButton` / `addMediumButton` / `addLargeButton`
call: the ribbon button joins the panel and the source button's (current)
text joins `shadowList`. -/
def addButton (env : BuildEnv) (st : BtnAcc) (acts2 : List (Nat × ActionData))
    (a : Nat) (size : ButtonSize) (button : SrcButton) : BtnAcc :=
  { actions := acts2
    shadow := st.shadow ++ [buttonText acts2 button]
    out := st.out ++ [makeRibbonButton env.params acts2 a size button] }

/-- The `try` block of the button loop, for the JSON command entry `cfg`
looked up with the action's payload. The text may be replaced (KeyError
keeps it); if the action's icon is then `None` the source feeds the JSON
command entry to `Gui.Command.get`, which raises, so the outer `except`
skips the button keeping the text change; the icon may be replaced; the
size entry selects the button flavour, `small` by default on KeyError, and
any other value raises NotImplementedError, which the outer `except`
catches, so the button is skipped and not recorded in `shadowList`. -/
def tryButton (env : BuildEnv) (cfg : Option CommandConfig) (st : BtnAcc)
    (button : SrcButton) : BtnAcc :=
  let a := button.actionId
  let acts1 := textStep cfg st.actions a
  if (getAction acts1 a).icon == none then { st with actions := acts1 }
  else
    let acts2 := iconStep env cfg acts1 a
    let buttonSize := (cfg.bind (fun c => c.size)).getD "small"
    if buttonSize == "small" then addButton env st acts2 a .small button
    else if buttonSize == "medium" then addButton env st acts2 a .medium button
    else if buttonSize == "large" then addButton env st acts2 a .large button
    else { st with actions := acts2 }

/-- One iteration of the `for button in allButtons` loop of `buildPanels`:
a button whose text is empty, or already in `shadowList`, is skipped,
otherwise the `try` block runs with the JSON command entry of the button's
default action. -/
def processButton (env : BuildEnv) (toolbar : String) (st : BtnAcc) (button : SrcButton) :
    BtnAcc :=
  let bt := buttonText st.actions button
  if bt == "" then st
  else if st.shadow.contains bt then st
  else
    tryButton env
      (commandConfig env.rs env.activeWb.name toolbar (getAction st.actions button.actionId).data)
      st button

/-! ## Building the panels of one `buildPanels` run -/

/-- Build the panel of one toolbar: run the button loop over `allButtons`
starting from an empty `shadowList`, then strip a trailing `_custom` from
the title. Returns the mutated action store and the panel. -/
def buildPanelFor (env : BuildEnv) (acts : List (Nat × ActionData)) (toolbar : String) :
    List (Nat × ActionData) × Panel :=
  let res := (allButtonsFor env acts toolbar).foldl (processButton env toolbar)
    { actions := acts, shadow := [], out := [] }
  let title := if pyEndsWith toolbar "_custom" then pyReplace toolbar "_custom" "" else toolbar
  (res.actions,
    { category := tabText env.tabs env.currentIndex
      sourceToolbar := toolbar
      title := title
      buttons := res.out })

/-- One iteration of the `for toolbar in ListToolbars` loop: toolbars in
`ignoredToolbars` and the empty toolbar name are skipped, every other
toolbar yields one panel, threading the action store. -/
def panelStep (env : BuildEnv) (acc : List (Nat × ActionData) × List Panel)
    (toolbar : String) : List (Nat × ActionData) × List Panel :=
  if env.rs.ignoredToolbars.contains toolbar then acc
  else if toolbar == "" then acc
  else
    let r := buildPanelFor env acc.1 toolbar
    (r.1, acc.2 ++ [r.2])

/-- The panel loop of `buildPanels`, over the assembled toolbar list. -/
def buildNewPanels (env : BuildEnv) : List (Nat × ActionData) × List Panel :=
  (listToolbarsFor env).foldl (panelStep env) (env.actions, [])

/-- `ModernMenu.buildPanels`. The current tab's ampersand-stripped text
indexes `isWbLoaded`; a missing key is the KeyError that propagates out
(`none`), a `True` value returns immediately with nothing changed, and
otherwise the panels are built and `isWbLoaded[tabName]` is set `True`. -/
def buildPanels (s : State) : Option State :=
  let env := buildEnv s
  let tabName := currentTabName env.tabs env.currentIndex
  match alGet env.isWbLoaded tabName with
  | none => none
  | some true => some s
  | some false =>
    let r := buildNewPanels env
    some { s with
      actions := r.1
      panels := s.panels ++ r.2
      isWbLoaded := alInsert s.isWbLoaded tabName true }

/-! ## Tab synchronisation and workbench activation -/

/-- `ModernMenu.updateCurrentTab`: when the index of the tab labelled with
the active workbench's MenuText differs from the current index, the current
index is set to it (with the signals disconnected around the call, so no
handler runs in between). -/
def updateCurrentTab (s : State) : State :=
  let currentWbIndex := tabIndexOf s.tabs s.activeWb.MenuText
  let currentTabIndex := s.currentIndex
  if currentWbIndex != currentTabIndex then { s with currentIndex := currentWbIndex }
  else s

/-- `ModernMenu.hideClassicToolbars`: hide every main-window toolbar whose
object name is not in the small keep list. -/
def hideClassicToolbars (s : State) : State :=
  { s with
    mwToolbars := s.mwToolbars.map
      (fun tb =>
        if (["", "draft_status_scale_widget", "draft_snap_widget"].contains tb.objectName) then tb
        else { tb with visible := false }) }

/-- `ModernMenu.onWbActivated`. The returned flag records whether
`buildPanels` was called. When the active workbench lacks `__Workbench__`,
the module timer's `timeout` is connected to `onWbActivated` (Qt adds a
connection per call), the timer is made single-shot, started at 100 ms, and
the method returns without building panels. -/
def onWbActivated (s : State) : Option (State × Bool) :=
  let s1 := updateCurrentTab s
  let s2 := hideClassicToolbars s1
  if s2.activeWb.hasWorkbenchAttr = false then
    some ({ s2 with
      timer :=
        { singleShot := true
          interval := 100
          active := true
          connected := s2.timer.connected ++ [HandlerTag.onWbActivatedTag] }
      events := s2.events ++ [Event.timerStart 100] }, false)
  else
    let s3 := { s2 with events := s2.events ++ [Event.buildPanelsCalled] }
    (buildPanels s3).map (fun t => (t, true))

/-- `ModernMenu.onUserChangedWorkbench`: the current tab's text with every
ampersand removed indexes `wbNameMapping` (KeyError propagates), the named
workbench is activated through `Gui.activateWorkbench` (an unknown name
fails in the host), and `onWbActivated` is called. -/
def onUserChangedWorkbench (s : State) : Option State :=
  let tabName := currentTabName s.tabs s.currentIndex
  match alGet s.wbNameMapping tabName with
  | none => none
  | some wbName =>
    match s.workbenches.find? (fun wb => wb.name == wbName) with
    | none => none
    | some wb =>
      let s1 := { s with
        activeWb := wb
        events := s.events ++ [Event.activateWorkbench wbName] }
      (onWbActivated s1).map (fun t => t.1)

/-! ## `createModernMenu` -/

/-- The quick access action ids: for each configured command name, the
first action of `Gui.Command.get(name).getAction()`; an unknown command or
an empty action list raises (AttributeError / IndexError) and aborts. -/
def quickAccessActions (s : State) : Option (List Nat) :=
  s.ribbonStructure.quickAccessCommands.mapM
    (fun commandName => (alGet s.commandActions commandName).bind List.head?)

/-- Register one workbench category: record the MenuText-to-name mapping
and the not-yet-loaded flag, and append the tab. Qt makes the first tab
added to an empty tab bar current; the tab icon is cosmetic and elided. -/
def addWorkbenchTab (st : State) (wb : Workbench) : State :=
  { st with
    wbNameMapping := alInsert st.wbNameMapping wb.MenuText wb.name
    isWbLoaded := alInsert st.isWbLoaded wb.MenuText false
    tabs := st.tabs ++ [wb.MenuText]
    currentIndex := if st.tabs.isEmpty then 0 else st.currentIndex }

/-- One step of the inner `for workbenchName, workbench in
Gui.listWorkbenches().items()` loop for one entry of the ordered list:
on a name match the workbench is skipped when its name is empty or its
MenuText is ignored, otherwise its category is added. -/
def categoryStep (ignored : List String) (entry : String) (st2 : State) (wb : Workbench) :
    State :=
  if wb.name == entry then
    if wb.name == "" || ignored.contains wb.MenuText then st2
    else addWorkbenchTab st2 wb
  else st2

/-- The inner loop over all workbenches for one ordered-list entry. -/
def categoryLoop (wbs : List Workbench) (ignored : List String) (st : State)
    (entry : String) : State :=
  wbs.foldl (categoryStep ignored entry) st

/-- `ModernMenu.createModernMenu`: add the quick access buttons, then for
every entry of the `Ordered` workbench preference (in that order) the
matching workbench of `Gui.listWorkbenches()` gets a category unless its
name is empty or its MenuText is in `ignoredWorkbenches`. The purely
cosmetic wiring (toolbar sizes, help and pin buttons, the file menu, the
scripts submenu, tab fonts) does not touch the embedded state and is
elided; the auto-hide preference is applied at the end. -/
def createModernMenu (s : State) : Option State :=
  match quickAccessActions s with
  | none => none
  | some qa =>
    let s1 := { s with quickAccessButtons := s.quickAccessButtons ++ qa }
    let WorkbenchOrderedList := pySplitComma s1.hostOrdered
    let s2 := WorkbenchOrderedList.foldl
      (categoryLoop s1.workbenches s1.ribbonStructure.ignoredWorkbenches) s1
    some { s2 with autoHideRibbon := s2.params.autoHide }

/-! ## Construction and the thin wrappers -/

/-- `ModernMenu.__init__`: the RibbonBar widget construction and signal
wiring are elided (the handlers are the functions above); the parsed
content of `RibbonStructure.json` (the `json.load` result, passed as the
`parsed` argument) is stored in the class attribute, then
`createModernMenu` and `onUserChangedWorkbench` run, the stylesheet is
applied and `MainWindowLoaded` is set. The trace records the store and the
two calls in order. -/
def ModernMenu_init (parsed : RibbonStructure) (s : State) : Option State :=
  let s0 := { s with
    ribbonStructure := parsed
    events := s.events ++ [Event.loadRibbonStructure] }
  match createModernMenu { s0 with events := s0.events ++ [Event.createModernMenuCalled] } with
  | none => none
  | some s1 =>
    match onUserChangedWorkbench { s1 with events := s1.events ++ [Event.onUserChangedCalled] } with
    | none => none
    | some s2 =>
      some { s2 with styleSheet := s2.params.styleSheet, mainWindowLoaded := true }

/-- `ModernMenu.loadDesignMenu`. Modelled from the spec: the body of
`LoadDesign_Ribbon.main` lives outside the source file; the spec classes
the design editor as a thin wrapper over host preference APIs, so the call
is recorded as an event and leaves the ribbon state unchanged. -/
def loadDesignMenu (s : State) : State :=
  { s with events := s.events ++ [Event.callDesignMain] }

/-- `ModernMenu.loadSettingsMenu`. Modelled from the spec: the body of
`LoadSettings_Ribbon.main` lives outside the source file; the spec classes
the settings dialog as a thin wrapper over host preference APIs, so the
call is recorded as an event and leaves the ribbon state unchanged. -/
def loadSettingsMenu (s : State) : State :=
  { s with events := s.events ++ [Event.callSettingsMain] }

/-- `ModernMenu.LoadMarcoFreeCAD(scriptName)`: only when `MainWindowLoaded`
is `True` and the path joined from the scripts directory ends in `.py` is
`App.loadFile` called on it. -/
def LoadMarcoFreeCAD (s : State) (scriptName : String) : State :=
  if s.mainWindowLoaded == true then
    let script := joinPath s.pathScripts scriptName
    if pyEndsWith script ".py" then { s with events := s.events ++ [Event.loadFile script] }
    else s
  else s

/-! ## A neutral state for concrete instances -/

/-- A neutral state with an empty ribbon, an empty host and a not-yet
loaded none workbench active; concrete test states override fields. -/
def baseState : State :=
  { tabs := []
    currentIndex := -1
    wbNameMapping := []
    isWbLoaded := []
    workbenches := []
    activeWb := { name := "", MenuText := "", Icon := "", hasWorkbenchAttr := false, toolbars := [] }
    mwToolbars := []
    actions := []
    hostCustomToolbars := []
    hostCommands := []
    hostIcons := []
    commandActions := []
    hostOrdered := ""
    pathScripts := ""
    ribbonStructure :=
      { quickAccessCommands := []
        ignoredWorkbenches := []
        ignoredToolbars := []
        customToolbars := []
        workbenches := [] }
    params :=
      { showIconTextSmall := true
        showIconTextMedium := true
        showIconTextLarge := true
        iconSizeSmall := 24
        iconSizeMedium := 32
        autoHide := false
        styleSheet := "" }
    panels := []
    quickAccessButtons := []
    timer := { singleShot := false, interval := 0, active := false, connected := [] }
    autoHideRibbon := false
    styleSheet := ""
    mainWindowLoaded := false
    events := [] }

/-! ## Specification-side definitions and concrete instances -/

/-- The tab (if any) one ordered-list entry contributes: the matching
workbench's MenuText unless the name is empty or the MenuText ignored. -/
def catTabOf (wbs : List Workbench) (ignored : List String) (entry : String) :
    Option String :=
  match wbs.find? (fun wb => wb.name == entry) with
  | none => none
  | some wb =>
    if wb.name == "" || ignored.contains wb.MenuText then none else some wb.MenuText

/-- The workbench tabs described by the specification sentence: the
workbenches appearing in the Ordered preference, in that order, with a
non-empty name and a MenuText not in the ignored list. -/
def orderedVisibleWorkbenchTabs (s : State) : List String :=
  (pySplitComma s.hostOrdered).filterMap
    (fun entry =>
      match s.workbenches.find? (fun wb => wb.name == entry) with
      | none => none
      | some wb =>
        if entry ≠ "" ∧ wb.MenuText ∉ s.ribbonStructure.ignoredWorkbenches then
          some wb.MenuText
        else none)

/-- No command entry of the JSON assigns an alternative text. -/
def noTextOverrides (rs : RibbonStructure) : Bool :=
  rs.workbenches.all
    (fun w => w.2.toolbars.all
      (fun t => t.2.commands.all (fun c => c.2.text == none)))

/-- The loop invariant: `shadowList` is exactly the list of texts of the
buttons added so far, it has no duplicates, and no empty text. -/
def btnInvariant (st : BtnAcc) : Prop :=
  st.shadow = st.out.map RibbonButton.text ∧ st.shadow.Nodup ∧ "" ∉ st.shadow

/-- Concrete instance for C1: one tab, its mapped workbench active. -/
def wbW1 : Workbench :=
  { name := "Wb1Name", MenuText := "Tab1", Icon := "", hasWorkbenchAttr := false, toolbars := [] }

def sW1 : State :=
  { baseState with
    tabs := ["Tab1"]
    currentIndex := 0
    wbNameMapping := [("Tab1", "Wb1Name")]
    workbenches := [wbW1]
    activeWb := wbW1 }

def onWb_sW1 : State × Bool := (onWbActivated sW1).getD (sW1, true)

def onUser_sW1 : State := (onUserChangedWorkbench sW1).getD sW1

/-- Concrete instance for C2: the active workbench is not yet loaded. -/
def wbW2 : Workbench :=
  { name := "Wb2Name", MenuText := "Tab2", Icon := "", hasWorkbenchAttr := false, toolbars := [] }

def sW2 : State :=
  { baseState with
    tabs := ["Tab2"]
    currentIndex := 0
    wbNameMapping := [("Tab2", "Wb2Name")]
    workbenches := [wbW2]
    activeWb := wbW2 }

def onWb_sW2 : State × Bool := (onWbActivated sW2).getD (sW2, true)

/-- Position of the first occurrence of an event in a trace (the trace
length when absent). -/
def eventIndex (e : Event) : List Event → Nat
  | [] => 0
  | x :: xs => if x == e then 0 else eventIndex e xs + 1

/-- Concrete instance for C4: a host with one not-yet-loaded workbench in
the Ordered preference, constructed from an empty JSON structure. -/
def wbW4 : Workbench :=
  { name := "Wb4Name", MenuText := "Tab4", Icon := "", hasWorkbenchAttr := false, toolbars := [] }

def sW4 : State :=
  { baseState with workbenches := [wbW4], hostOrdered := "Wb4Name", activeWb := wbW4 }

def parsedW4 : RibbonStructure := baseState.ribbonStructure

def initW4 : State := (ModernMenu_init parsedW4 sW4).getD sW4

/-- Concrete instance for C6: the current tab is already loaded. -/
def sW6 : State :=
  { baseState with tabs := ["Tab6"], currentIndex := 0, isWbLoaded := [("Tab6", true)] }

def bp_sW6 : State := (buildPanels sW6).getD sW6

/-- Concrete instance for C5 (categories): two workbenches in the Ordered
preference, one with an ignored MenuText, one entry with no workbench. -/
def wbW5 : Workbench :=
  { name := "Wb5Name", MenuText := "Tab5", Icon := "", hasWorkbenchAttr := true
    toolbars := ["TB5", "Ignored5", ""] }

def wbW5hid : Workbench :=
  { name := "Wb5Hidden", MenuText := "Hidden5", Icon := "", hasWorkbenchAttr := true
    toolbars := [] }

def rsW5 : RibbonStructure :=
  { baseState.ribbonStructure with
    ignoredWorkbenches := ["Hidden5"]
    ignoredToolbars := ["Ignored5"] }

def sW5a : State :=
  { baseState with
    workbenches := [wbW5, wbW5hid]
    hostOrdered := "Wb5Name,Wb5Hidden,Missing"
    ribbonStructure := rsW5 }

def cm_sW5a : State := (createModernMenu sW5a).getD sW5a

/-- Concrete instance for C5 (panels): the active workbench lists an
ignored toolbar and an empty toolbar name next to a real one. -/
def sW5b : State :=
  { baseState with
    tabs := ["Tab5"]
    currentIndex := 0
    isWbLoaded := [("Tab5", false)]
    workbenches := [wbW5]
    activeWb := wbW5
    ribbonStructure := rsW5
    mwToolbars := [{ objectName := "TB5", buttons := [], visible := true }] }

def bp_sW5b : State := (buildPanels sW5b).getD sW5b

/-- Concrete instance for C3 (witness): one toolbar with one configured
button that builds into one small ribbon button. -/
def wbW3 : Workbench :=
  { name := "WB3", MenuText := "Tab3", Icon := "", hasWorkbenchAttr := true
    toolbars := ["TB3w"] }

def sW3 : State :=
  { baseState with
    tabs := ["Tab3"]
    currentIndex := 0
    isWbLoaded := [("Tab3", false)]
    workbenches := [wbW3]
    activeWb := wbW3
    mwToolbars := [{ objectName := "TB3w", buttons := [⟨31, false⟩], visible := true }]
    actions := [(31, { text := "A3", icon := some "i", data := some "cmd3" })] }

def bp_sW3 : State := (buildPanels sW3).getD sW3

def rbW3 : RibbonButton :=
  (((buildPanelFor (buildEnv sW3) sW3.actions "TB3w").2).buttons).headD
    { text := "", icon := none, size := .small, showText := true, fixedHeight := none
      actionId := 0, hasMenu := false }

/-- Concrete counterexample state for C3: the collected button has
non-empty unseen text but its JSON size entry is invalid. -/
def wbCex3 : Workbench :=
  { name := "WB3c", MenuText := "Tab3c", Icon := "", hasWorkbenchAttr := true
    toolbars := ["TB3c"] }

def sCex3 : State :=
  { baseState with
    tabs := ["Tab3c"]
    currentIndex := 0
    isWbLoaded := [("Tab3c", false)]
    workbenches := [wbCex3]
    activeWb := wbCex3
    mwToolbars := [{ objectName := "TB3c", buttons := [⟨32, false⟩], visible := true }]
    actions := [(32, { text := "A", icon := some "i", data := some "cmd3c" })]
    ribbonStructure :=
      { baseState.ribbonStructure with
        workbenches := [("WB3c",
          { toolbarsOrder := none
            toolbars := [("TB3c",
              { order := none
                commands := [("cmd3c", { text := none, icon := none, size := some "huge" })] })] })] } }

/-- Concrete counterexample state for C7: the JSON renames the second
command to the first one's text. -/
def wbCex7 : Workbench :=
  { name := "WB7c", MenuText := "Tab7c", Icon := "", hasWorkbenchAttr := true
    toolbars := ["TB7c"] }

def sCex7 : State :=
  { baseState with
    tabs := ["Tab7c"]
    currentIndex := 0
    isWbLoaded := [("Tab7c", false)]
    workbenches := [wbCex7]
    activeWb := wbCex7
    mwToolbars := [{ objectName := "TB7c", buttons := [⟨71, false⟩, ⟨72, false⟩], visible := true }]
    actions := [(71, { text := "A", icon := some "i", data := some "cmdA" }),
                (72, { text := "B", icon := some "i", data := some "cmdB" })]
    ribbonStructure :=
      { baseState.ribbonStructure with
        workbenches := [("WB7c",
          { toolbarsOrder := none
            toolbars := [("TB7c",
              { order := none
                commands := [("cmdB", { text := some "A", icon := none, size := none })] })] })] } }

/-- Concrete instance for C7 (witness): a toolbar without text overrides,
and a loop accumulator exercising both skip paths. -/
def wbW7 : Workbench :=
  { name := "WB7", MenuText := "Tab7", Icon := "", hasWorkbenchAttr := true
    toolbars := ["TB7w"] }

def sW7 : State :=
  { baseState with
    tabs := ["Tab7"]
    currentIndex := 0
    isWbLoaded := [("Tab7", false)]
    workbenches := [wbW7]
    activeWb := wbW7
    mwToolbars := [{ objectName := "TB7w", buttons := [⟨71, false⟩, ⟨72, false⟩], visible := true }]
    actions := [(71, { text := "A7", icon := some "i", data := none }),
                (72, { text := "B7", icon := some "i", data := none })] }

def stW7 : BtnAcc :=
  { actions := [(75, { text := "A7", icon := some "i", data := none }),
                (76, { text := "", icon := some "i", data := none })]
    shadow := ["A7"]
    out := [] }

/-- Concrete instance for C8: two commands, one with size `medium`, one
with the invalid size `huge`. -/
def wbW8 : Workbench :=
  { name := "WB8", MenuText := "Tab8", Icon := "", hasWorkbenchAttr := true
    toolbars := ["TB8"] }

def rsW8 : RibbonStructure :=
  { baseState.ribbonStructure with
    workbenches := [("WB8",
      { toolbarsOrder := none
        toolbars := [("TB8",
          { order := none
            commands := [("cmd8", { text := none, icon := none, size := some "medium" }),
                         ("cmd9", { text := none, icon := none, size := some "huge" })] })] })] }

def envW8 : BuildEnv :=
  buildEnv { baseState with activeWb := wbW8, ribbonStructure := rsW8 }

def stW8 : BtnAcc :=
  { actions := [(81, { text := "A8", icon := some "i", data := some "cmd8" }),
                (82, { text := "B8", icon := some "i", data := some "cmd9" })]
    shadow := []
    out := [] }

def bW8 : SrcButton := ⟨81, false⟩

def bW9 : SrcButton := ⟨82, false⟩

/-- Concrete counterexample states for C9: identical active workbench,
toolbars, actions and JSON structure, but a different `isWbLoaded` flag
for the current tab changes the outcome. -/
def wbW9 : Workbench :=
  { name := "WB9", MenuText := "Tab9", Icon := "", hasWorkbenchAttr := true
    toolbars := ["TB9"] }

def sCex9a : State :=
  { baseState with
    tabs := ["Tab9"]
    currentIndex := 0
    isWbLoaded := [("Tab9", false)]
    workbenches := [wbW9]
    activeWb := wbW9
    mwToolbars := [{ objectName := "TB9", buttons := [⟨91, false⟩], visible := true }]
    actions := [(91, { text := "A9", icon := some "i", data := some "cmd9a" })] }

def sCex9b : State := { sCex9a with isWbLoaded := [("Tab9", true)] }

/-- A state agreeing with the first C9 state on every input `buildPanels`
reads but differing elsewhere. -/
def s9c : State :=
  { sCex9a with
    styleSheet := "other"
    mainWindowLoaded := true
    events := [Event.callDesignMain]
    timer := { singleShot := true, interval := 7, active := true, connected := [] } }

def bp9a : State := (buildPanels sCex9a).getD sCex9a

def bp9c : State := (buildPanels s9c).getD s9c

/-! ## General helper lemmas -/

/-- A fold whose step preserves a projection preserves it overall. -/
theorem foldl_preserves {α β γ : Type} (f : β → α → β) (P : β → γ)
    (h : ∀ st x, P (f st x) = P st) (l : List α) (st : β) :
    P (List.foldl f st l) = P st := by
  induction l generalizing st with
  | nil => rfl
  | cons x xs ih =>
    show P (List.foldl f (f st x) xs) = P st
    rw [ih (f st x), h]

/-- Reading back the key just written into an association list. -/
theorem alGet_alInsert_self {κ α : Type} [BEq κ] [LawfulBEq κ]
    (d : List (κ × α)) (k : κ) (v : α) : alGet (alInsert d k v) k = some v := by
  induction d with
  | nil => simp [alGet, alInsert]
  | cons p rest ih =>
    by_cases h : p.1 == k <;> simp [alGet, alInsert, h, ih]

/-- A successful association-list read returns the payload of a member. -/
theorem alGet_mem {κ α : Type} [BEq κ] (d : List (κ × α)) (k : κ) (v : α)
    (h : alGet d k = some v) : ∃ p, p ∈ d ∧ p.2 = v := by
  induction d with
  | nil => simp [alGet] at h
  | cons p rest ih =>
    by_cases hp : p.1 == k
    · simp [alGet, hp] at h
      exact ⟨p, by simp, h⟩
    · simp [alGet, hp] at h
      obtain ⟨q, hq, hv⟩ := ih h
      exact ⟨q, by simp [hq], hv⟩

/-- An unequal integer test in Qt-style code: a false bang-equals means
equality. -/
theorem eq_of_bne_false {α : Type} [BEq α] [LawfulBEq α] {a b : α}
    (h : (a != b) = false) : a = b := by
  simp [bne] at h
  exact h

/-! ## Structural lemmas about the embedded methods -/

/-- Whether the branch is taken or not, `updateCurrentTab` leaves the
current index at the index of the active workbench's MenuText tab. -/
theorem updateCurrentTab_eq (s : State) :
    updateCurrentTab s = { s with currentIndex := tabIndexOf s.tabs s.activeWb.MenuText } := by
  simp only [updateCurrentTab]
  by_cases h : (tabIndexOf s.tabs s.activeWb.MenuText != s.currentIndex) = true
  · rw [if_pos h]
  · rw [if_neg h]
    have hb : (tabIndexOf s.tabs s.activeWb.MenuText != s.currentIndex) = false := by
      simpa using h
    rw [eq_of_bne_false hb]

/-- The two successful outcomes of `buildPanels`: the early return on an
already-loaded tab, or a completed build. -/
theorem buildPanels_cases (s s' : State) (h : buildPanels s = some s') :
    (alGet s.isWbLoaded (currentTabName s.tabs s.currentIndex) = some true ∧ s' = s)
    ∨ (alGet s.isWbLoaded (currentTabName s.tabs s.currentIndex) = some false ∧
        s' = { s with
          actions := (buildNewPanels (buildEnv s)).1
          panels := s.panels ++ (buildNewPanels (buildEnv s)).2
          isWbLoaded := alInsert s.isWbLoaded (currentTabName s.tabs s.currentIndex) true }) := by
  simp only [buildPanels, buildEnv] at h
  split at h
  · exact absurd h (by simp)
  · next heq => exact Or.inl ⟨heq, (Option.some.injEq _ _ ▸ h).symm⟩
  · next heq => exact Or.inr ⟨heq, (Option.some.injEq _ _ ▸ h).symm⟩

/-- `buildPanels` never touches the tab bar, the active workbench, the
mappings, the timer, the events or the configuration. -/
theorem buildPanels_preserves (s s' : State) (h : buildPanels s = some s') :
    s'.tabs = s.tabs ∧ s'.currentIndex = s.currentIndex ∧ s'.activeWb = s.activeWb ∧
    s'.events = s.events ∧ s'.wbNameMapping = s.wbNameMapping ∧ s'.timer = s.timer ∧
    s'.ribbonStructure = s.ribbonStructure ∧ s'.workbenches = s.workbenches := by
  rcases buildPanels_cases s s' h with ⟨_, rfl⟩ | ⟨_, rfl⟩ <;> simp

/-- What a successful `onWbActivated` run guarantees: the active workbench,
tab labels and mappings are untouched, the current index now points at the
active workbench's tab, and events are only appended. -/
theorem onWbActivated_spec (s s' : State) (b : Bool) (h : onWbActivated s = some (s', b)) :
    s'.activeWb = s.activeWb ∧ s'.tabs = s.tabs ∧
    s'.currentIndex = tabIndexOf s.tabs s.activeWb.MenuText ∧
    s'.wbNameMapping = s.wbNameMapping ∧ s'.ribbonStructure = s.ribbonStructure ∧
    (∃ l, s'.events = s.events ++ l) := by
  simp only [onWbActivated, updateCurrentTab_eq, hideClassicToolbars] at h
  split at h
  · rw [Option.some.injEq] at h
    rw [show s' = ({ s with
          currentIndex := tabIndexOf s.tabs s.activeWb.MenuText
          mwToolbars := s.mwToolbars.map (fun tb =>
            if (["", "draft_status_scale_widget", "draft_snap_widget"].contains tb.objectName) then tb
            else { tb with visible := false })
          timer :=
            { singleShot := true, interval := 100, active := true
              connected := s.timer.connected ++ [HandlerTag.onWbActivatedTag] }
          events := s.events ++ [Event.timerStart 100] } : State) from congrArg Prod.fst h.symm]
    exact ⟨rfl, rfl, rfl, rfl, rfl, [Event.timerStart 100], rfl⟩
  · rcases Option.map_eq_some'.mp h with ⟨t, ht, hteq⟩
    have hs : t = s' := congrArg Prod.fst hteq
    subst hs
    obtain ⟨h1, h2, h3, h4, h5, h6, h7, h8⟩ := buildPanels_preserves _ _ ht
    refine ⟨by simpa using h3, by simpa using h1, by simpa using h2,
      by simpa using h5, by simpa using h7, ?_⟩
    refine ⟨[Event.buildPanelsCalled], ?_⟩
    simpa using h4

/-- A successful `onUserChangedWorkbench` run records the activation of
the workbench mapped to the stripped current tab text, leaves that
workbench active, and only appends events; the configuration stays. -/
theorem onUserChangedWorkbench_spec (s s2 : State) (h : onUserChangedWorkbench s = some s2) :
    ∃ wbName wb,
      alGet s.wbNameMapping (currentTabName s.tabs s.currentIndex) = some wbName ∧
      s.workbenches.find? (fun w => w.name == wbName) = some wb ∧
      s2.activeWb = wb ∧
      (∃ l, s2.events = s.events ++ [Event.activateWorkbench wbName] ++ l) ∧
      s2.ribbonStructure = s.ribbonStructure := by
  simp only [onUserChangedWorkbench] at h
  split at h
  · exact absurd h (by simp)
  · next wbName heq =>
    split at h
    · exact absurd h (by simp)
    · next wb hfind =>
      rcases Option.map_eq_some'.mp h with ⟨⟨t, bb⟩, ht, hteq⟩
      have ht2 : t = s2 := hteq
      subst ht2
      obtain ⟨h1, _, _, _, h5, l, hl⟩ := onWbActivated_spec _ _ _ ht
      refine ⟨wbName, wb, heq, hfind, by simpa using h1, ⟨l, ?_⟩, by simpa using h5⟩
      simpa [List.append_assoc] using hl

/-- Fields `categoryStep` leaves untouched. -/
theorem categoryStep_proj (ign : List String) (e : String) (st : State) (wb : Workbench) :
    (categoryStep ign e st wb).events = st.events ∧
    (categoryStep ign e st wb).ribbonStructure = st.ribbonStructure ∧
    (categoryStep ign e st wb).workbenches = st.workbenches ∧
    (categoryStep ign e st wb).activeWb = st.activeWb ∧
    (categoryStep ign e st wb).panels = st.panels ∧
    (categoryStep ign e st wb).params = st.params := by
  simp only [categoryStep, addWorkbenchTab]
  split
  · split <;> simp
  · simp

/-- Fields `categoryLoop` leaves untouched. -/
theorem categoryLoop_proj (wbs : List Workbench) (ign : List String) (st : State)
    (e : String) :
    (categoryLoop wbs ign st e).events = st.events ∧
    (categoryLoop wbs ign st e).ribbonStructure = st.ribbonStructure ∧
    (categoryLoop wbs ign st e).workbenches = st.workbenches ∧
    (categoryLoop wbs ign st e).activeWb = st.activeWb ∧
    (categoryLoop wbs ign st e).panels = st.panels ∧
    (categoryLoop wbs ign st e).params = st.params := by
  unfold categoryLoop
  exact ⟨foldl_preserves _ State.events (fun st wb => (categoryStep_proj ign e st wb).1) wbs st,
    foldl_preserves _ State.ribbonStructure (fun st wb => (categoryStep_proj ign e st wb).2.1) wbs st,
    foldl_preserves _ State.workbenches (fun st wb => (categoryStep_proj ign e st wb).2.2.1) wbs st,
    foldl_preserves _ State.activeWb (fun st wb => (categoryStep_proj ign e st wb).2.2.2.1) wbs st,
    foldl_preserves _ State.panels (fun st wb => (categoryStep_proj ign e st wb).2.2.2.2.1) wbs st,
    foldl_preserves _ State.params (fun st wb => (categoryStep_proj ign e st wb).2.2.2.2.2) wbs st⟩

/-- `createModernMenu` does not emit events and keeps the stored
configuration, the workbench list and the active workbench. -/
theorem createModernMenu_preserves (s s1 : State) (h : createModernMenu s = some s1) :
    s1.events = s.events ∧ s1.ribbonStructure = s.ribbonStructure ∧
    s1.workbenches = s.workbenches ∧ s1.activeWb = s.activeWb ∧
    s1.panels = s.panels ∧ s1.params = s.params := by
  simp only [createModernMenu] at h
  split at h
  · exact absurd h (by simp)
  · next qa hqa =>
    rw [Option.some.injEq] at h
    subst h
    have hfold := fun (P : State → List Event) =>
      foldl_preserves (categoryLoop s.workbenches s.ribbonStructure.ignoredWorkbenches) P
    refine ⟨?_, ?_, ?_, ?_, ?_, ?_⟩ <;>
      simp only [State.mk.injEq] <;>
      first
      | exact (foldl_preserves _ State.events
          (fun st e => (categoryLoop_proj _ _ st e).1) _ _)
      | exact (foldl_preserves _ State.ribbonStructure
          (fun st e => (categoryLoop_proj _ _ st e).2.1) _ _)
      | exact (foldl_preserves _ State.workbenches
          (fun st e => (categoryLoop_proj _ _ st e).2.2.1) _ _)
      | exact (foldl_preserves _ State.activeWb
          (fun st e => (categoryLoop_proj _ _ st e).2.2.2.1) _ _)
      | exact (foldl_preserves _ State.panels
          (fun st e => (categoryLoop_proj _ _ st e).2.2.2.2.1) _ _)
      | exact (foldl_preserves _ State.params
          (fun st e => (categoryLoop_proj _ _ st e).2.2.2.2.2) _ _)

/-! ## Characterising the category loop of `createModernMenu` -/

/-- A fold of `categoryStep` over workbenches none of which match is the
identity. -/
theorem categoryStep_fold_no_match (ign : List String) (e : String)
    (wbs : List Workbench) (st : State) (h : ∀ wb ∈ wbs, (wb.name == e) = false) :
    List.foldl (categoryStep ign e) st wbs = st := by
  induction wbs generalizing st with
  | nil => rfl
  | cons w ws ih =>
    show List.foldl (categoryStep ign e) (categoryStep ign e st w) ws = st
    rw [show categoryStep ign e st w = st by simp [categoryStep, h w (by simp)]]
    exact ih st (fun wb hm => h wb (by simp [hm]))

/-- With pairwise distinct workbench names (dictionary keys are unique),
the inner loop acts exactly on the first matching workbench. -/
theorem categoryLoop_eq (wbs : List Workbench) (ign : List String) (st : State)
    (e : String) (hnd : (wbs.map Workbench.name).Nodup) :
    categoryLoop wbs ign st e =
      match wbs.find? (fun wb => wb.name == e) with
      | none => st
      | some wb =>
        if wb.name == "" || ign.contains wb.MenuText then st else addWorkbenchTab st wb := by
  induction wbs generalizing st with
  | nil => rfl
  | cons w ws ih =>
    unfold categoryLoop at ih ⊢
    have hnd2 := (by simpa using hnd :
      (∀ x ∈ ws, ¬ x.name = w.name) ∧ (List.map Workbench.name ws).Nodup)
    by_cases hw : (w.name == e) = true
    · have hfind : List.find? (fun wb => wb.name == e) (w :: ws) = some w := by
        simp [List.find?, hw]
      rw [hfind]
      show List.foldl (categoryStep ign e) (categoryStep ign e st w) ws = _
      rw [show categoryStep ign e st w =
          (if w.name == "" || ign.contains w.MenuText then st else addWorkbenchTab st w)
          from by simp [categoryStep, hw]]
      apply categoryStep_fold_no_match
      intro wb hm
      have hwe : w.name = e := by simpa using hw
      have : wb.name ≠ e := fun hce => (hnd2.1 wb hm) (by rw [hce, hwe])
      simpa using this
    · have hfind : List.find? (fun wb => wb.name == e) (w :: ws)
          = List.find? (fun wb => wb.name == e) ws := by
        simp [List.find?, hw]
      rw [hfind]
      show List.foldl (categoryStep ign e) (categoryStep ign e st w) ws = _
      rw [show categoryStep ign e st w = st by simp [categoryStep, hw]]
      exact ih st hnd2.2

/-- The tabs produced by the ordered-list fold: the starting tabs followed
by one MenuText per contributing entry, in order. -/
theorem categoryFold_tabs (wbs : List Workbench) (ign : List String)
    (es : List String) (st : State) (hnd : (wbs.map Workbench.name).Nodup) :
    (es.foldl (categoryLoop wbs ign) st).tabs = st.tabs ++ es.filterMap (catTabOf wbs ign) := by
  induction es generalizing st with
  | nil => simp
  | cons e es ih =>
    show (es.foldl (categoryLoop wbs ign) (categoryLoop wbs ign st e)).tabs = _
    rw [ih (categoryLoop wbs ign st e), categoryLoop_eq wbs ign st e hnd]
    cases hf : wbs.find? (fun wb => wb.name == e) with
    | none => simp [catTabOf, hf, List.filterMap_cons]
    | some wb =>
      by_cases hc : wb.name = "" ∨ wb.MenuText ∈ ign
      · have hcb : (wb.name == "" || ign.contains wb.MenuText) = true := by
          simpa using hc
        simp [catTabOf, hf, hcb, hc, List.filterMap_cons]
      · have hcb : (wb.name == "" || ign.contains wb.MenuText) = false := by
          simpa using hc
        simp [catTabOf, hf, hcb, hc, List.filterMap_cons, addWorkbenchTab]

/-- The loop characterisation and the specification sentence agree. -/
theorem catTabOf_eq_spec (wbs : List Workbench) (ign : List String) (e : String) :
    catTabOf wbs ign e =
      match wbs.find? (fun wb => wb.name == e) with
      | none => none
      | some wb => if e ≠ "" ∧ wb.MenuText ∉ ign then some wb.MenuText else none := by
  unfold catTabOf
  cases hf : wbs.find? (fun wb => wb.name == e) with
  | none => rfl
  | some wb =>
    have hwe : wb.name = e := by simpa using List.find?_some hf
    subst hwe
    by_cases hc : wb.name = "" ∨ wb.MenuText ∈ ign
    · have hcb : (wb.name == "" || ign.contains wb.MenuText) = true := by simpa using hc
      simp only [hcb, if_true]
      rcases hc with h | h <;> simp [h]
    · have hcb : (wb.name == "" || ign.contains wb.MenuText) = false := by simpa using hc
      push_neg at hc
      simp [hcb, hc.1, hc.2]

/-! ## Characterising the panel loop of `buildPanels` -/

/-- The panel created for a toolbar carries that toolbar name. -/
theorem buildPanelFor_sourceToolbar (env : BuildEnv) (acts : List (Nat × ActionData))
    (toolbar : String) : ((buildPanelFor env acts toolbar).2).sourceToolbar = toolbar := rfl

/-- The source toolbars of the panels produced by the panel loop are
exactly the non-ignored, non-empty entries of the toolbar list, in order. -/
theorem panelFold_map (env : BuildEnv) (ts : List String)
    (acc : List (Nat × ActionData) × List Panel) :
    ((ts.foldl (panelStep env) acc).2).map Panel.sourceToolbar
      = acc.2.map Panel.sourceToolbar
        ++ ts.filter (fun t => !(env.rs.ignoredToolbars.contains t) && !(t == "")) := by
  induction ts generalizing acc with
  | nil => simp
  | cons t ts ih =>
    show ((ts.foldl (panelStep env) (panelStep env acc t)).2).map Panel.sourceToolbar = _
    rw [ih (panelStep env acc t)]
    by_cases h1 : t ∈ env.rs.ignoredToolbars
    · simp [panelStep, h1, List.filter_cons]
    · by_cases h2 : t = ""
      · simp [panelStep, h1, h2, List.filter_cons]
      · simp [panelStep, h1, h2, List.filter_cons, buildPanelFor_sourceToolbar]

/-- The full panel loop result. -/
theorem buildNewPanels_map (env : BuildEnv) :
    ((buildNewPanels env).2).map Panel.sourceToolbar
      = (listToolbarsFor env).filter
          (fun t => !(env.rs.ignoredToolbars.contains t) && !(t == "")) := by
  unfold buildNewPanels
  simpa using panelFold_map env (listToolbarsFor env) (env.actions, [])

/-! ## Action-store mutation lemmas -/

/-- Reading back after a text write: the looked-up action carries the new
text exactly when the written id is the looked-up id. -/
theorem alGet_setActionText (acts : List (Nat × ActionData)) (i : Nat) (t : String)
    (j : Nat) :
    alGet (setActionText acts i t) j
      = (alGet acts j).map (fun a => if j == i then { a with text := t } else a) := by
  induction acts with
  | nil => simp [setActionText, alGet]
  | cons p rest ih =>
    simp only [setActionText, List.map_cons]
    by_cases hpj : (p.1 == j) = true
    · have hj : p.1 = j := by simpa using hpj
      subst hj
      by_cases hpi : (p.1 == i) = true <;> simp [alGet, hpi]
    · by_cases hpi : (p.1 == i) = true <;>
        simpa [alGet, hpj, hpi, setActionText] using ih

/-- Reading back after an icon write. -/
theorem alGet_setActionIcon (acts : List (Nat × ActionData)) (i : Nat)
    (v : Option String) (j : Nat) :
    alGet (setActionIcon acts i v) j
      = (alGet acts j).map (fun a => if j == i then { a with icon := v } else a) := by
  induction acts with
  | nil => simp [setActionIcon, alGet]
  | cons p rest ih =>
    simp only [setActionIcon, List.map_cons]
    by_cases hpj : (p.1 == j) = true
    · have hj : p.1 = j := by simpa using hpj
      subst hj
      by_cases hpi : (p.1 == i) = true <;> simp [alGet, hpi]
    · by_cases hpi : (p.1 == i) = true <;>
        simpa [alGet, hpj, hpi, setActionIcon] using ih

/-- Replacing an action's text leaves every icon unchanged. -/
theorem getAction_setActionText_icon (acts : List (Nat × ActionData)) (i : Nat)
    (t : String) (j : Nat) :
    (getAction (setActionText acts i t) j).icon = (getAction acts j).icon := by
  simp only [getAction, alGet_setActionText]
  cases alGet acts j with
  | none => rfl
  | some a => by_cases hji : (j == i) = true <;> simp [hji]

/-- Replacing an action's text leaves every payload unchanged. -/
theorem getAction_setActionText_data (acts : List (Nat × ActionData)) (i : Nat)
    (t : String) (j : Nat) :
    (getAction (setActionText acts i t) j).data = (getAction acts j).data := by
  simp only [getAction, alGet_setActionText]
  cases alGet acts j with
  | none => rfl
  | some a => by_cases hji : (j == i) = true <;> simp [hji]

/-- Replacing an action's icon leaves every text unchanged. -/
theorem getAction_setActionIcon_text (acts : List (Nat × ActionData)) (i : Nat)
    (v : Option String) (j : Nat) :
    (getAction (setActionIcon acts i v) j).text = (getAction acts j).text := by
  simp only [getAction, alGet_setActionIcon]
  cases alGet acts j with
  | none => rfl
  | some a => by_cases hji : (j == i) = true <;> simp [hji]

/-! ## What one button-loop iteration can do to the panel -/

/-- The `try` block either leaves the added buttons unchanged or appends
exactly one ribbon button whose default action is the source button's
default action. -/
theorem tryButton_out (env : BuildEnv) (cfg : Option CommandConfig) (st : BtnAcc)
    (b : SrcButton) :
    (tryButton env cfg st b).out = st.out ∨
    ∃ rb, (tryButton env cfg st b).out = st.out ++ [rb] ∧
      rb.actionId = b.actionId := by
  simp only [tryButton]
  split
  · exact Or.inl rfl
  · split
    · exact Or.inr ⟨_, rfl, rfl⟩
    · split
      · exact Or.inr ⟨_, rfl, rfl⟩
      · split
        · exact Or.inr ⟨_, rfl, rfl⟩
        · exact Or.inl rfl

/-- `processButton` either leaves the added buttons unchanged (the skip
paths) or appends exactly one ribbon button whose default action is the
source button's default action. -/
theorem processButton_out (env : BuildEnv) (toolbar : String) (st : BtnAcc)
    (b : SrcButton) :
    (processButton env toolbar st b).out = st.out ∨
    ∃ rb, (processButton env toolbar st b).out = st.out ++ [rb] ∧
      rb.actionId = b.actionId := by
  simp only [processButton]
  split
  · exact Or.inl rfl
  · split
    · exact Or.inl rfl
    · exact tryButton_out env _ st b

/-- Every button the loop adds comes from some processed source button and
shares its default action. -/
theorem foldButtons_mem (env : BuildEnv) (toolbar : String) (bs : List SrcButton)
    (st : BtnAcc) :
    ∀ rb ∈ (bs.foldl (processButton env toolbar) st).out,
      rb ∈ st.out ∨ ∃ src ∈ bs, rb.actionId = src.actionId := by
  induction bs generalizing st with
  | nil => exact fun rb h => Or.inl h
  | cons b bs ih =>
    intro rb h
    rcases ih (processButton env toolbar st b) rb h with h2 | ⟨src, hs, he⟩
    · rcases processButton_out env toolbar st b with ho | ⟨rb2, ho, ha⟩
      · rw [ho] at h2
        exact Or.inl h2
      · rw [ho] at h2
        rcases List.mem_append.mp h2 with hin | hsing
        · exact Or.inl hin
        · right
          refine ⟨b, by simp, ?_⟩
          rw [show rb = rb2 from by simpa using hsing]
          exact ha
    · exact Or.inr ⟨src, by simp [hs], he⟩

/-- Every button of a built panel has the same action object as one of the
collected source buttons of its toolbar. -/
theorem buildPanelFor_buttons (env : BuildEnv) (acts : List (Nat × ActionData))
    (toolbar : String) :
    ∀ rb ∈ ((buildPanelFor env acts toolbar).2).buttons,
      ∃ src ∈ allButtonsFor env acts toolbar, rb.actionId = src.actionId := by
  intro rb h
  have h2 : rb ∈ ((allButtonsFor env acts toolbar).foldl (processButton env toolbar)
      { actions := acts, shadow := [], out := [] }).out := by
    simpa [buildPanelFor] using h
  rcases foldButtons_mem env toolbar (allButtonsFor env acts toolbar) _ rb h2 with h3 | h3
  · simp at h3
  · exact h3

/-! ## Distinctness of the texts within one panel -/

/-- A false `contains` really is non-membership. -/
theorem not_mem_of_contains_false {α : Type} [BEq α] [LawfulBEq α] {l : List α} {a : α}
    (h : l.contains a = false) : a ∉ l := by
  intro hm
  rw [show l.contains a = l.elem a from rfl, List.elem_iff.mpr hm] at h
  simp at h

/-- Without text overrides, every text lookup raises KeyError. -/
theorem commandConfig_text_none (rs : RibbonStructure) (w t : String) (d : Option String)
    (h : noTextOverrides rs = true) :
    (commandConfig rs w t d).bind CommandConfig.text = none := by
  unfold commandConfig
  cases d with
  | none => rfl
  | some dd =>
    cases h1 : alGet rs.workbenches w with
    | none => rfl
    | some wcfg =>
      cases h2 : alGet wcfg.toolbars t with
      | none => simp [h2]
      | some tcfg =>
        cases h3 : alGet tcfg.commands dd with
        | none => simp [h2, h3]
        | some ccfg =>
          obtain ⟨pw, hpw, hw2⟩ := alGet_mem _ _ _ h1
          obtain ⟨pt, hpt, ht2⟩ := alGet_mem _ _ _ h2
          obtain ⟨pc, hpc, hc2⟩ := alGet_mem _ _ _ h3
          have hall := (List.all_eq_true.mp h) pw hpw
          rw [hw2] at hall
          have hall2 := (List.all_eq_true.mp hall) pt hpt
          rw [ht2] at hall2
          have hall3 := (List.all_eq_true.mp hall2) pc hpc
          rw [hc2] at hall3
          have : ccfg.text = none := by simpa using hall3
          simp [h2, h3, this]

/-- `iconStep` never changes an action's text. -/
theorem iconStep_text (env : BuildEnv) (cfg : Option CommandConfig)
    (acts : List (Nat × ActionData)) (a j : Nat) :
    (getAction (iconStep env cfg acts a) j).text = (getAction acts j).text := by
  unfold iconStep
  cases cfg.bind (fun c => c.icon) with
  | none => rfl
  | some icon_Json =>
    by_cases hi : (icon_Json != "") = true
    · simp [hi, getAction_setActionIcon_text]
    · simp [hi]

/-- Without text overrides the `try` block preserves the invariant,
assuming the loop guards already held for this button. -/
theorem tryButton_invariant (env : BuildEnv) (cfg : Option CommandConfig) (st : BtnAcc)
    (b : SrcButton) (hcfg : cfg.bind CommandConfig.text = none)
    (hne : buttonText st.actions b ≠ "")
    (hm : buttonText st.actions b ∉ st.shadow)
    (h : btnInvariant st) : btnInvariant (tryButton env cfg st b) := by
  have htext :
      buttonText (iconStep env cfg (textStep cfg st.actions b.actionId) b.actionId) b
        = buttonText st.actions b := by
    unfold buttonText
    rw [iconStep_text]
    simp [textStep, hcfg]
  have hadd : ∀ size, btnInvariant
      (addButton env st (iconStep env cfg (textStep cfg st.actions b.actionId) b.actionId)
        b.actionId size b) := by
    intro size
    obtain ⟨hs1, hs2, hs3⟩ := h
    refine ⟨?_, ?_, ?_⟩
    · simp only [addButton, List.map_append]
      rw [hs1]
      simp [makeRibbonButton, htext, buttonText]
    · simp only [addButton]
      rw [List.nodup_append]
      refine ⟨hs2, List.nodup_singleton _, ?_⟩
      intro x hx hy
      rw [htext] at hy
      simp at hy
      subst hy
      exact hm hx
    · simp only [addButton]
      intro hmem
      rcases List.mem_append.mp hmem with hin | hsing
      · exact hs3 hin
      · rw [htext] at hsing
        simp at hsing
        exact hne hsing.symm
  simp only [tryButton]
  split
  · exact h
  · split
    · exact hadd .small
    · split
      · exact hadd .medium
      · split
        · exact hadd .large
        · exact h

/-- Without text overrides one loop iteration preserves the invariant. -/
theorem processButton_invariant (env : BuildEnv) (toolbar : String) (st : BtnAcc)
    (b : SrcButton) (hno : noTextOverrides env.rs = true)
    (h : btnInvariant st) : btnInvariant (processButton env toolbar st b) := by
  simp only [processButton]
  split
  · exact h
  · split
    · exact h
    · next hne hm =>
      refine tryButton_invariant env _ st b
        (commandConfig_text_none _ _ _ _ hno) ?_ ?_ h
      · intro hc
        exact hne (by simp [hc])
      · exact not_mem_of_contains_false (by simpa using hm)

/-- Without text overrides the whole loop preserves the invariant. -/
theorem foldButtons_invariant (env : BuildEnv) (toolbar : String) (bs : List SrcButton)
    (st : BtnAcc) (hno : noTextOverrides env.rs = true)
    (h : btnInvariant st) : btnInvariant (bs.foldl (processButton env toolbar) st) := by
  induction bs generalizing st with
  | nil => exact h
  | cons b bs ih =>
    exact ih (processButton env toolbar st b) (processButton_invariant env toolbar st b hno h)

/-- Without text overrides a built panel carries pairwise distinct,
non-empty button texts. -/
theorem buildPanelFor_texts (env : BuildEnv) (acts : List (Nat × ActionData))
    (toolbar : String) (hno : noTextOverrides env.rs = true) :
    (((buildPanelFor env acts toolbar).2).buttons.map RibbonButton.text).Nodup ∧
    ∀ rb ∈ ((buildPanelFor env acts toolbar).2).buttons, rb.text ≠ "" := by
  have hinv := foldButtons_invariant env toolbar (allButtonsFor env acts toolbar)
    { actions := acts, shadow := [], out := [] } hno ⟨rfl, List.nodup_nil, by simp⟩
  obtain ⟨h1, h2, h3⟩ := hinv
  constructor
  · rw [show ((buildPanelFor env acts toolbar).2).buttons
      = ((allButtonsFor env acts toolbar).foldl (processButton env toolbar)
          { actions := acts, shadow := [], out := [] }).out from rfl]
    rw [← h1]
    exact h2
  · intro rb hrb hempty
    apply h3
    rw [h1]
    have hmem : rb.text ∈ (((allButtonsFor env acts toolbar).foldl (processButton env toolbar)
        { actions := acts, shadow := [], out := [] }).out).map RibbonButton.text :=
      List.mem_map_of_mem RibbonButton.text hrb
    rwa [hempty] at hmem

/-! ## Reducing the loop body under the guards -/

/-- `textStep` never changes an action's icon. -/
theorem textStep_icon (cfg : Option CommandConfig) (acts : List (Nat × ActionData))
    (a j : Nat) :
    (getAction (textStep cfg acts a) j).icon = (getAction acts j).icon := by
  unfold textStep
  cases cfg.bind (fun c => c.text) with
  | none => rfl
  | some t => exact getAction_setActionText_icon acts a t j

/-- Under the two loop guards `processButton` is the `try` block. -/
theorem processButton_eq_tryButton (env : BuildEnv) (toolbar : String) (st : BtnAcc)
    (b : SrcButton) (h1 : buttonText st.actions b ≠ "")
    (h2 : buttonText st.actions b ∉ st.shadow) :
    processButton env toolbar st b =
      tryButton env
        (commandConfig env.rs env.activeWb.name toolbar (getAction st.actions b.actionId).data)
        st b := by
  have g1 : ¬ ((buttonText st.actions b == "") = true) := by simpa using h1
  have g2 : ¬ (st.shadow.contains (buttonText st.actions b) = true) := by
    intro hc
    exact h2 (List.elem_iff.mp hc)
  simp [processButton, g1, g2, h2]

/-- With a present icon the `try` block reaches the size dispatch. -/
theorem tryButton_eq (env : BuildEnv) (cfg : Option CommandConfig) (st : BtnAcc)
    (b : SrcButton) (hicon : (getAction st.actions b.actionId).icon ≠ none) :
    tryButton env cfg st b =
      (if (cfg.bind (fun c => c.size)).getD "small" == "small" then
        addButton env st (iconStep env cfg (textStep cfg st.actions b.actionId) b.actionId)
          b.actionId .small b
      else if (cfg.bind (fun c => c.size)).getD "small" == "medium" then
        addButton env st (iconStep env cfg (textStep cfg st.actions b.actionId) b.actionId)
          b.actionId .medium b
      else if (cfg.bind (fun c => c.size)).getD "small" == "large" then
        addButton env st (iconStep env cfg (textStep cfg st.actions b.actionId) b.actionId)
          b.actionId .large b
      else { st with actions := iconStep env cfg (textStep cfg st.actions b.actionId) b.actionId }) := by
  simp only [tryButton]
  rw [if_neg]
  intro hc
  rw [show ((getAction (textStep cfg st.actions b.actionId) b.actionId).icon == none)
      = ((getAction st.actions b.actionId).icon == none) from by rw [textStep_icon]] at hc
  exact hicon (by simpa using hc)

/-! ## Claim theorems -/

/-- C1: the ribbon stays synchronized with the host's active workbench.
After `onWbActivated` (which runs `updateCurrentTab` first) the tab bar's
current index equals the index of the tab whose label is the active
workbench's MenuText; conversely a user tab selection makes
`onUserChangedWorkbench` activate the workbench that `wbNameMapping` maps
the ampersand-stripped current tab text to. -/
theorem ribbon_workbench_sync :
    (∀ s s' b i, onWbActivated s = some (s', b) →
      s.tabs.findIdx? (fun t => t == s.activeWb.MenuText) = some i →
      s'.currentIndex = (i : Int))
    ∧ (∀ s s2 wbName wb,
      alGet s.wbNameMapping (currentTabName s.tabs s.currentIndex) = some wbName →
      s.workbenches.find? (fun w => w.name == wbName) = some wb →
      onUserChangedWorkbench s = some s2 →
      Event.activateWorkbench wbName ∈ s2.events ∧ s2.activeWb = wb) := by
  constructor
  · intro s s' b i h hidx
    obtain ⟨_, _, h3, _, _, _⟩ := onWbActivated_spec s s' b h
    rw [h3]
    simp [tabIndexOf, hidx]
  · intro s s2 wbName wb hmap hfind h
    obtain ⟨wbName2, wb2, hmap2, hfind2, hact, ⟨l, hev⟩, _⟩ :=
      onUserChangedWorkbench_spec s s2 h
    rw [hmap] at hmap2
    injection hmap2 with e1
    subst e1
    rw [hfind] at hfind2
    injection hfind2 with e2
    subst e2
    refine ⟨?_, hact⟩
    rw [hev]
    simp

/-- Witness for C1 at a concrete state. -/
theorem ribbon_workbench_sync_witness :
    onWbActivated sW1 = some onWb_sW1 ∧
    onWb_sW1.1.currentIndex = (0 : Int) ∧
    alGet sW1.wbNameMapping (currentTabName sW1.tabs sW1.currentIndex) = some "Wb1Name" ∧
    onUserChangedWorkbench sW1 = some onUser_sW1 ∧
    Event.activateWorkbench "Wb1Name" ∈ onUser_sW1.events ∧
    onUser_sW1.activeWb = wbW1 := by
  have h2 := ribbon_workbench_sync.2 sW1 onUser_sW1 "Wb1Name" wbW1 (by rfl) (by rfl) (by rfl)
  exact ⟨rfl,
    ribbon_workbench_sync.1 sW1 onWb_sW1.1 onWb_sW1.2 0 (by rfl) (by rfl),
    rfl, rfl, h2.1, h2.2⟩

/-- C2: the only concurrency mechanism is the single module-level retry
timer. When the active workbench lacks the lazily created attribute,
`onWbActivated` configures the timer single-shot at 100 ms, connects it to
itself, starts it and returns without building panels; `buildPanels` is
called exactly when the attribute exists. -/
theorem single_retry_timer :
    (∀ s s' b, onWbActivated s = some (s', b) → s.activeWb.hasWorkbenchAttr = false →
      b = false ∧ s'.panels = s.panels ∧ s'.timer.singleShot = true ∧
      s'.timer.interval = 100 ∧ HandlerTag.onWbActivatedTag ∈ s'.timer.connected ∧
      s'.timer.active = true ∧ Event.timerStart 100 ∈ s'.events ∧
      Event.buildPanelsCalled ∉ s'.events.drop s.events.length)
    ∧ (∀ s s' b, onWbActivated s = some (s', b) →
        (b = true ↔ s.activeWb.hasWorkbenchAttr = true)) := by
  constructor
  · intro s s' b h hattr
    simp only [onWbActivated, updateCurrentTab_eq, hideClassicToolbars] at h
    split at h
    · rw [Option.some.injEq, Prod.mk.injEq] at h
      obtain ⟨h5, h6⟩ := h
      subst h5
      refine ⟨h6.symm, rfl, rfl, rfl, by simp, rfl, by simp, ?_⟩
      rw [show (s.events ++ [Event.timerStart 100]).drop s.events.length
          = [Event.timerStart 100] from List.drop_left _ _]
      simp
    · next hc => exact absurd hattr (by simpa using hc)
  · intro s s' b h
    simp only [onWbActivated, updateCurrentTab_eq, hideClassicToolbars] at h
    split at h
    · next hc =>
      rw [Option.some.injEq, Prod.mk.injEq] at h
      constructor
      · intro hb
        rw [← h.2] at hb
        simp at hb
      · intro hb
        rw [hc] at hb
        simp at hb
    · next hc =>
      have hattr2 : s.activeWb.hasWorkbenchAttr = true := by simpa using hc
      rcases Option.map_eq_some'.mp h with ⟨t, _, hteq⟩
      rw [Prod.mk.injEq] at hteq
      simp [← hteq.2, hattr2]

/-- Witness for C2 at a concrete state. -/
theorem single_retry_timer_witness :
    sW2.activeWb.hasWorkbenchAttr = false ∧
    onWbActivated sW2 = some onWb_sW2 ∧
    onWb_sW2.2 = false ∧ onWb_sW2.1.panels = sW2.panels ∧
    onWb_sW2.1.timer.singleShot = true ∧ onWb_sW2.1.timer.interval = 100 ∧
    HandlerTag.onWbActivatedTag ∈ onWb_sW2.1.timer.connected ∧
    onWb_sW2.1.timer.active = true ∧
    Event.timerStart 100 ∈ onWb_sW2.1.events ∧
    Event.buildPanelsCalled ∉ onWb_sW2.1.events.drop sW2.events.length ∧
    (onWb_sW2.2 = true ↔ sW2.activeWb.hasWorkbenchAttr = true) := by
  have h := single_retry_timer.1 sW2 onWb_sW2.1 onWb_sW2.2 (by rfl) (by rfl)
  have h2 := single_retry_timer.2 sW2 onWb_sW2.1 onWb_sW2.2 (by rfl)
  exact ⟨rfl, rfl, h.1, h.2.1, h.2.2.1, h.2.2.2.1, h.2.2.2.2.1, h.2.2.2.2.2.1,
    h.2.2.2.2.2.2.1, h.2.2.2.2.2.2.2, h2⟩

/-- An already-loaded current tab makes `buildPanels` the identity. -/
theorem buildPanels_of_loaded (s : State)
    (h : alGet s.isWbLoaded (currentTabName s.tabs s.currentIndex) = some true) :
    buildPanels s = some s := by
  simp [buildPanels, buildEnv, h]

/-- A successful `buildPanels` run leaves the current tab marked loaded. -/
theorem buildPanels_sets_loaded (s s' : State) (h : buildPanels s = some s') :
    alGet s'.isWbLoaded (currentTabName s'.tabs s'.currentIndex) = some true := by
  rcases buildPanels_cases s s' h with ⟨hc, rfl⟩ | ⟨hc, rfl⟩
  · exact hc
  · simpa using alGet_alInsert_self s.isWbLoaded (currentTabName s.tabs s.currentIndex) true

/-- C6: `buildPanels` is idempotent per tab. With the current tab already
marked loaded it returns immediately with nothing changed; a successful
run marks the current tab loaded; and running it twice in succession
equals running it once. -/
theorem buildPanels_idempotent :
    (∀ s, alGet s.isWbLoaded (currentTabName s.tabs s.currentIndex) = some true →
      buildPanels s = some s)
    ∧ (∀ s s', buildPanels s = some s' →
        alGet s'.isWbLoaded (currentTabName s'.tabs s'.currentIndex) = some true)
    ∧ (∀ s, (buildPanels s).bind buildPanels = buildPanels s) := by
  refine ⟨buildPanels_of_loaded, buildPanels_sets_loaded, ?_⟩
  intro s
  cases hb : buildPanels s with
  | none => rfl
  | some s2 =>
    show buildPanels s2 = some s2
    exact buildPanels_of_loaded s2 (buildPanels_sets_loaded s s2 hb)

/-- Witness for C6 at a concrete state. -/
theorem buildPanels_idempotent_witness :
    alGet sW6.isWbLoaded (currentTabName sW6.tabs sW6.currentIndex) = some true ∧
    buildPanels sW6 = some sW6 ∧
    alGet bp_sW6.isWbLoaded (currentTabName bp_sW6.tabs bp_sW6.currentIndex) = some true ∧
    (buildPanels sW6).bind buildPanels = buildPanels sW6 := by
  refine ⟨rfl, buildPanels_idempotent.1 sW6 rfl, ?_, buildPanels_idempotent.2.2 sW6⟩
  exact buildPanels_idempotent.2.1 sW6 bp_sW6 (by rfl)

/-- C10: the surrounding functionality is thin wrappers. The design and
settings entries only delegate to the external modules (recorded as
events) leaving every other state component unchanged, and the script
loader calls `App.loadFile` exactly when the main window finished loading
and the joined path ends in `.py`, doing nothing otherwise. -/
theorem thin_wrappers :
    ∀ (s : State) (scriptName : String),
      loadDesignMenu s = { s with events := s.events ++ [Event.callDesignMain] } ∧
      loadSettingsMenu s = { s with events := s.events ++ [Event.callSettingsMain] } ∧
      LoadMarcoFreeCAD s scriptName =
        (if s.mainWindowLoaded = true ∧
            pyEndsWith (joinPath s.pathScripts scriptName) ".py" = true then
          { s with events := s.events ++ [Event.loadFile (joinPath s.pathScripts scriptName)] }
        else s) := by
  intro s scriptName
  refine ⟨rfl, rfl, ?_⟩
  unfold LoadMarcoFreeCAD
  by_cases h1 : s.mainWindowLoaded = true
  · by_cases h2 : pyEndsWith (joinPath s.pathScripts scriptName) ".py" = true
    · simp [h1, h2]
    · simp [h1, h2]
  · simp [h1]

/-- C4: the layout is driven by the declarative structure read once at
construction. A successful `ModernMenu_init` stores the parsed JSON in the
class attribute, and in the emitted trace the store strictly precedes the
`createModernMenu` and `onUserChangedWorkbench` calls, both of which
occur; the configuration field afterwards equals the parsed structure (all
later configuration decisions read this field). -/
theorem ribbon_structure_loaded_first :
    ∀ parsed s s', ModernMenu_init parsed s = some s' →
      s'.ribbonStructure = parsed ∧
      eventIndex Event.loadRibbonStructure (s'.events.drop s.events.length) = 0 ∧
      0 < eventIndex Event.createModernMenuCalled (s'.events.drop s.events.length) ∧
      0 < eventIndex Event.onUserChangedCalled (s'.events.drop s.events.length) ∧
      Event.createModernMenuCalled ∈ s'.events.drop s.events.length ∧
      Event.onUserChangedCalled ∈ s'.events.drop s.events.length ∧
      s'.mainWindowLoaded = true := by
  intro parsed s s' h
  simp only [ModernMenu_init] at h
  split at h
  · exact absurd h (by simp)
  · next s1 hcr =>
    split at h
    · exact absurd h (by simp)
    · next s2 hou =>
      rw [Option.some.injEq] at h
      subst h
      obtain ⟨he1, hrs1p, _, _, _, _⟩ := createModernMenu_preserves _ _ hcr
      obtain ⟨wbName, wb, _, _, _, ⟨l, hev⟩, hrs2⟩ := onUserChangedWorkbench_spec _ _ hou
      have hrs1 : s1.ribbonStructure = parsed := by simpa using hrs1p
      have he1n : s1.events = (s.events ++ [Event.loadRibbonStructure])
          ++ [Event.createModernMenuCalled] := by simpa using he1
      have hevn : s2.events = ((s1.events ++ [Event.onUserChangedCalled])
          ++ [Event.activateWorkbench wbName]) ++ l := by simpa using hev
      have htail : s2.events = s.events ++ (Event.loadRibbonStructure ::
          Event.createModernMenuCalled :: Event.onUserChangedCalled ::
          Event.activateWorkbench wbName :: l) := by
        rw [hevn, he1n]
        simp
      refine ⟨?_, ?_, ?_, ?_, ?_, ?_, rfl⟩
      · have : s2.ribbonStructure = parsed := by
          rw [hrs2]
          simpa using hrs1
        simpa using this
      · show eventIndex Event.loadRibbonStructure (s2.events.drop s.events.length) = 0
        rw [htail, List.drop_left]
        simp [eventIndex]
      · show 0 < eventIndex Event.createModernMenuCalled (s2.events.drop s.events.length)
        rw [htail, List.drop_left]
        simp [eventIndex]
      · show 0 < eventIndex Event.onUserChangedCalled (s2.events.drop s.events.length)
        rw [htail, List.drop_left]
        simp [eventIndex]
      · show Event.createModernMenuCalled ∈ s2.events.drop s.events.length
        rw [htail, List.drop_left]
        simp
      · show Event.onUserChangedCalled ∈ s2.events.drop s.events.length
        rw [htail, List.drop_left]
        simp

/-- Witness for C4 at a concrete construction. -/
theorem ribbon_structure_loaded_first_witness :
    ModernMenu_init parsedW4 sW4 = some initW4 ∧
    initW4.ribbonStructure = parsedW4 ∧
    eventIndex Event.loadRibbonStructure (initW4.events.drop sW4.events.length) = 0 ∧
    0 < eventIndex Event.createModernMenuCalled (initW4.events.drop sW4.events.length) ∧
    0 < eventIndex Event.onUserChangedCalled (initW4.events.drop sW4.events.length) ∧
    Event.createModernMenuCalled ∈ initW4.events.drop sW4.events.length ∧
    Event.onUserChangedCalled ∈ initW4.events.drop sW4.events.length ∧
    initW4.mainWindowLoaded = true :=
  ⟨rfl, ribbon_structure_loaded_first parsedW4 sW4 initW4 (by rfl)⟩

/-- C5: the JSON drives the filtering of the widget tree. A category is
added exactly for the Ordered-preference workbenches, in order, with a
non-empty name and a MenuText outside `ignoredWorkbenches`; and no panel
is built for a toolbar that is ignored or empty-named. -/
theorem json_filtering :
    (∀ s s1, (s.workbenches.map Workbench.name).Nodup → createModernMenu s = some s1 →
      s1.tabs = s.tabs ++ orderedVisibleWorkbenchTabs s)
    ∧ (∀ s s', buildPanels s = some s' → ∀ p ∈ s'.panels,
        p ∈ s.panels ∨
        (p.sourceToolbar ∉ s.ribbonStructure.ignoredToolbars ∧ p.sourceToolbar ≠ "")) := by
  constructor
  · intro s s1 hnd h
    simp only [createModernMenu] at h
    split at h
    · exact absurd h (by simp)
    · next qa hqa =>
      rw [Option.some.injEq] at h
      subst h
      show (List.foldl (categoryLoop s.workbenches s.ribbonStructure.ignoredWorkbenches)
        { s with quickAccessButtons := s.quickAccessButtons ++ qa }
        (pySplitComma s.hostOrdered)).tabs = _
      rw [categoryFold_tabs s.workbenches s.ribbonStructure.ignoredWorkbenches _ _ hnd]
      show s.tabs ++ _ = s.tabs ++ _
      rw [show catTabOf s.workbenches s.ribbonStructure.ignoredWorkbenches
          = (fun entry =>
              match s.workbenches.find? (fun wb => wb.name == entry) with
              | none => none
              | some wb =>
                if entry ≠ "" ∧ wb.MenuText ∉ s.ribbonStructure.ignoredWorkbenches then
                  some wb.MenuText
                else none)
          from funext (catTabOf_eq_spec s.workbenches s.ribbonStructure.ignoredWorkbenches)]
      rfl
  · intro s s' h p hp
    rcases buildPanels_cases s s' h with ⟨_, rfl⟩ | ⟨hc, rfl⟩
    · exact Or.inl hp
    · have hp2 : p ∈ s.panels ++ (buildNewPanels (buildEnv s)).2 := by simpa using hp
      rcases List.mem_append.mp hp2 with h1 | h1
      · exact Or.inl h1
      · right
        have hm : p.sourceToolbar ∈ ((buildNewPanels (buildEnv s)).2).map Panel.sourceToolbar :=
          List.mem_map_of_mem Panel.sourceToolbar h1
        rw [buildNewPanels_map] at hm
        have hflt := List.of_mem_filter hm
        simp only [Bool.and_eq_true, Bool.not_eq_true', beq_eq_false_iff_ne] at hflt
        exact ⟨not_mem_of_contains_false hflt.1, hflt.2⟩

/-- Witness for C5 at concrete states. -/
theorem json_filtering_witness :
    ((sW5a.workbenches.map Workbench.name).Nodup ∧
     createModernMenu sW5a = some cm_sW5a ∧
     cm_sW5a.tabs = sW5a.tabs ++ orderedVisibleWorkbenchTabs sW5a ∧
     orderedVisibleWorkbenchTabs sW5a = ["Tab5"]) ∧
    (buildPanels sW5b = some bp_sW5b ∧
     bp_sW5b.panels.map Panel.sourceToolbar = ["TB5"] ∧
     ∀ p ∈ bp_sW5b.panels,
       p ∈ sW5b.panels ∨
       (p.sourceToolbar ∉ sW5b.ribbonStructure.ignoredToolbars ∧ p.sourceToolbar ≠ "")) :=
  ⟨⟨by decide, rfl, json_filtering.1 sW5a cm_sW5a (by decide) (by rfl), rfl⟩,
   ⟨rfl, rfl, json_filtering.2 sW5b bp_sW5b (by rfl)⟩⟩

/-- With a present icon and a size entry that is absent or valid, the
`try` block adds exactly one ribbon button sharing the source button's
default action. -/
theorem tryButton_adds_of_valid (env : BuildEnv) (cfg : Option CommandConfig)
    (st : BtnAcc) (b : SrcButton)
    (hicon : (getAction st.actions b.actionId).icon ≠ none)
    (hval : ∀ sz, cfg.bind (fun c => c.size) = some sz → sz ∈ ["small", "medium", "large"]) :
    ∃ rb, (tryButton env cfg st b).out = st.out ++ [rb] ∧ rb.actionId = b.actionId := by
  rw [tryButton_eq env cfg st b hicon]
  cases hsz : cfg.bind (fun c => c.size) with
  | none =>
    simp only [hsz, Option.getD_none]
    exact ⟨_, rfl, rfl⟩
  | some sz =>
    have hmem : sz = "small" ∨ sz = "medium" ∨ sz = "large" := by
      simpa using hval sz hsz
    rcases hmem with rfl | rfl | rfl <;>
      · simp only [hsz, Option.getD_some]
        simp only [show (("small" : String) == "small") = true from rfl,
          show (("medium" : String) == "small") = false from rfl,
          show (("medium" : String) == "medium") = true from rfl,
          show (("large" : String) == "small") = false from rfl,
          show (("large" : String) == "medium") = false from rfl,
          show (("large" : String) == "large") = true from rfl,
          if_true, if_false]
        exact ⟨_, rfl, rfl⟩

/-- C3 counterexample, refuting the claim as stated: the single collected
button of the toolbar has non-empty text "A" not yet in the shadow list,
yet no ribbon button is added to the panel, because its JSON size entry is
the invalid value "huge". -/
theorem live_actions_reparented_cex :
    allButtonsFor (buildEnv sCex3) sCex3.actions "TB3c" = [⟨32, false⟩] ∧
    buttonText sCex3.actions ⟨32, false⟩ = "A" ∧
    (commandConfig sCex3.ribbonStructure "WB3c" "TB3c" (some "cmd3c")).bind
      (fun c => c.size) = some "huge" ∧
    (buildPanels sCex3).map (fun t => t.panels.map (fun p => p.buttons.length))
      = some [0] :=
  ⟨rfl, rfl, rfl, rfl⟩

/-- C3 (amended): a fresh build appends one panel per non-ignored,
non-empty toolbar, created with the toolbar name as title; every ribbon
button of a built panel carries the very same action object as some
collected source button of that toolbar; and conversely a collected button
with non-empty, not-yet-seen text whose action has an icon and whose
configured size is absent or one of small, medium, large is added as a
ribbon button with the same action object. -/
theorem live_actions_reparented :
    (∀ s s', alGet s.isWbLoaded (currentTabName s.tabs s.currentIndex) = some false →
      buildPanels s = some s' →
      s'.panels = s.panels ++ (buildNewPanels (buildEnv s)).2 ∧
      ((buildNewPanels (buildEnv s)).2).map Panel.sourceToolbar
        = (listToolbarsFor (buildEnv s)).filter
            (fun t => !((buildEnv s).rs.ignoredToolbars.contains t) && !(t == "")))
    ∧ (∀ env acts toolbar, ∀ rb ∈ ((buildPanelFor env acts toolbar).2).buttons,
        ∃ src ∈ allButtonsFor env acts toolbar, rb.actionId = src.actionId)
    ∧ (∀ env toolbar st b,
        buttonText st.actions b ≠ "" →
        buttonText st.actions b ∉ st.shadow →
        (getAction st.actions b.actionId).icon ≠ none →
        (∀ sz, (commandConfig env.rs env.activeWb.name toolbar
            (getAction st.actions b.actionId).data).bind (fun c => c.size) = some sz →
          sz ∈ ["small", "medium", "large"]) →
        ∃ rb, (processButton env toolbar st b).out = st.out ++ [rb] ∧
          rb.actionId = b.actionId) := by
  refine ⟨?_, ?_, ?_⟩
  · intro s s' hload h
    rcases buildPanels_cases s s' h with ⟨hc, rfl⟩ | ⟨hc, rfl⟩
    · rw [hload] at hc
      exact absurd hc (by simp)
    · exact ⟨by simp, buildNewPanels_map (buildEnv s)⟩
  · exact buildPanelFor_buttons
  · intro env toolbar st b h1 h2 h3 h4
    rw [processButton_eq_tryButton env toolbar st b h1 h2]
    exact tryButton_adds_of_valid env _ st b h3 h4

/-- Witness for C3 at a concrete state: the real toolbar builds into one
panel whose single button shares the source button's action object. -/
theorem live_actions_reparented_witness :
    alGet sW3.isWbLoaded (currentTabName sW3.tabs sW3.currentIndex) = some false ∧
    buildPanels sW3 = some bp_sW3 ∧
    bp_sW3.panels = sW3.panels ++ (buildNewPanels (buildEnv sW3)).2 ∧
    ((buildNewPanels (buildEnv sW3)).2).map Panel.sourceToolbar = ["TB3w"] ∧
    rbW3 ∈ ((buildPanelFor (buildEnv sW3) sW3.actions "TB3w").2).buttons ∧
    (∃ src ∈ allButtonsFor (buildEnv sW3) sW3.actions "TB3w",
      rbW3.actionId = src.actionId) ∧
    (∃ rb, (processButton (buildEnv sW3) "TB3w"
        { actions := sW3.actions, shadow := [], out := [] } ⟨31, false⟩).out
        = ([] : List RibbonButton) ++ [rb] ∧ rb.actionId = 31) := by
  have h1 := live_actions_reparented.1 sW3 bp_sW3 (by rfl) (by rfl)
  refine ⟨rfl, rfl, h1.1, by rfl, by decide, ?_, ?_⟩
  · exact live_actions_reparented.2.1 (buildEnv sW3) sW3.actions "TB3w" rbW3 (by decide)
  · exact live_actions_reparented.2.2 (buildEnv sW3) "TB3w"
      { actions := sW3.actions, shadow := [], out := [] } ⟨31, false⟩
      (by decide) (by decide) (by decide) (by decide)

/-- C7 counterexample, refuting the claim as stated: the JSON assigns the
second command the first one's text, so the built panel carries two ribbon
buttons with the same text "A". -/
theorem panel_texts_distinct_cex :
    (buildPanels sCex7).map
        (fun t => t.panels.map (fun p => p.buttons.map RibbonButton.text))
      = some [["A", "A"]] ∧
    ¬ (["A", "A"] : List String).Nodup :=
  ⟨rfl, by decide⟩

/-- C7 (amended): a source button is skipped when its text is empty or
already in `shadowList`; and when the ribbon structure assigns no
alternative text to any command, the buttons added to one panel have
pairwise distinct, non-empty texts. -/
theorem panel_texts_distinct :
    (∀ env toolbar st b, buttonText st.actions b = "" →
      processButton env toolbar st b = st)
    ∧ (∀ env toolbar st b, buttonText st.actions b ∈ st.shadow →
        processButton env toolbar st b = st)
    ∧ (∀ env acts toolbar, noTextOverrides env.rs = true →
        (((buildPanelFor env acts toolbar).2).buttons.map RibbonButton.text).Nodup ∧
        ∀ rb ∈ ((buildPanelFor env acts toolbar).2).buttons, rb.text ≠ "") := by
  refine ⟨?_, ?_, ?_⟩
  · intro env toolbar st b h
    simp [processButton, h]
  · intro env toolbar st b h
    by_cases h0 : buttonText st.actions b = "" <;> simp [processButton, h0, h]
  · intro env acts toolbar hno
    exact buildPanelFor_texts env acts toolbar hno

/-- Witness for C7 at concrete inputs: both skip paths and a build without
overrides, whose two button texts are distinct and non-empty. -/
theorem panel_texts_distinct_witness :
    buttonText stW7.actions (⟨76, false⟩ : SrcButton) = "" ∧
    processButton (buildEnv sW7) "TB7w" stW7 ⟨76, false⟩ = stW7 ∧
    buttonText stW7.actions (⟨75, false⟩ : SrcButton) ∈ stW7.shadow ∧
    processButton (buildEnv sW7) "TB7w" stW7 ⟨75, false⟩ = stW7 ∧
    noTextOverrides (buildEnv sW7).rs = true ∧
    (((buildPanelFor (buildEnv sW7) sW7.actions "TB7w").2).buttons.map
      RibbonButton.text).Nodup ∧
    (((buildPanelFor (buildEnv sW7) sW7.actions "TB7w").2).buttons.map
      RibbonButton.text) = ["A7", "B7"] ∧
    ∀ rb ∈ ((buildPanelFor (buildEnv sW7) sW7.actions "TB7w").2).buttons,
      rb.text ≠ "" := by
  have h3 := panel_texts_distinct.2.2 (buildEnv sW7) sW7.actions "TB7w" (by rfl)
  exact ⟨rfl,
    panel_texts_distinct.1 (buildEnv sW7) "TB7w" stW7 ⟨76, false⟩ (by rfl),
    by decide,
    panel_texts_distinct.2.1 (buildEnv sW7) "TB7w" stW7 ⟨75, false⟩ (by decide),
    rfl, h3.1, rfl, h3.2⟩

/-- C8: the size entry selects the small, medium or large button; an
absent entry defaults to small; any other value makes the button be
skipped, leaving the panel and `shadowList` untouched, and the loop
continues with the next button. -/
theorem button_size_handling :
    (∀ env toolbar st b,
      buttonText st.actions b ≠ "" →
      buttonText st.actions b ∉ st.shadow →
      (getAction st.actions b.actionId).icon ≠ none →
      (((commandConfig env.rs env.activeWb.name toolbar
            (getAction st.actions b.actionId).data).bind (fun c => c.size) = none →
          ∃ rb, (processButton env toolbar st b).out = st.out ++ [rb] ∧
            rb.size = ButtonSize.small)
        ∧ ((commandConfig env.rs env.activeWb.name toolbar
            (getAction st.actions b.actionId).data).bind (fun c => c.size) = some "small" →
          ∃ rb, (processButton env toolbar st b).out = st.out ++ [rb] ∧
            rb.size = ButtonSize.small)
        ∧ ((commandConfig env.rs env.activeWb.name toolbar
            (getAction st.actions b.actionId).data).bind (fun c => c.size) = some "medium" →
          ∃ rb, (processButton env toolbar st b).out = st.out ++ [rb] ∧
            rb.size = ButtonSize.medium)
        ∧ ((commandConfig env.rs env.activeWb.name toolbar
            (getAction st.actions b.actionId).data).bind (fun c => c.size) = some "large" →
          ∃ rb, (processButton env toolbar st b).out = st.out ++ [rb] ∧
            rb.size = ButtonSize.large)
        ∧ (∀ sz, (commandConfig env.rs env.activeWb.name toolbar
            (getAction st.actions b.actionId).data).bind (fun c => c.size) = some sz →
          sz ∉ (["small", "medium", "large"] : List String) →
          (processButton env toolbar st b).out = st.out ∧
          (processButton env toolbar st b).shadow = st.shadow)))
    ∧ (∀ env toolbar st b rest,
        List.foldl (processButton env toolbar) st (b :: rest)
          = List.foldl (processButton env toolbar) (processButton env toolbar st b) rest) := by
  constructor
  · intro env toolbar st b h1 h2 h3
    rw [processButton_eq_tryButton env toolbar st b h1 h2,
      tryButton_eq env _ st b h3]
    refine ⟨?_, ?_, ?_, ?_, ?_⟩
    · intro hsz
      simp only [hsz, Option.getD_none]
      exact ⟨_, rfl, rfl⟩
    · intro hsz
      simp only [hsz, Option.getD_some]
      exact ⟨_, rfl, rfl⟩
    · intro hsz
      simp only [hsz, Option.getD_some,
        show (("medium" : String) == "small") = false from rfl,
        show (("medium" : String) == "medium") = true from rfl, if_false, if_true]
      exact ⟨_, rfl, rfl⟩
    · intro hsz
      simp only [hsz, Option.getD_some,
        show (("large" : String) == "small") = false from rfl,
        show (("large" : String) == "medium") = false from rfl,
        show (("large" : String) == "large") = true from rfl, if_false, if_true]
      exact ⟨_, rfl, rfl⟩
    · intro sz hsz hmem
      have e1 : (sz == "small") = false := by
        simp only [beq_eq_false_iff_ne]
        intro hh
        exact hmem (by simp [hh])
      have e2 : (sz == "medium") = false := by
        simp only [beq_eq_false_iff_ne]
        intro hh
        exact hmem (by simp [hh])
      have e3 : (sz == "large") = false := by
        simp only [beq_eq_false_iff_ne]
        intro hh
        exact hmem (by simp [hh])
      simp only [hsz, Option.getD_some, e1, e2, e3, if_false]
      exact ⟨rfl, rfl⟩
  · intro env toolbar st b rest
    rfl

/-- Witness for C8 at concrete inputs: a command configured `medium` gets
a medium button, a command configured `huge` is skipped with the shadow
list untouched. -/
theorem button_size_handling_witness :
    (commandConfig envW8.rs envW8.activeWb.name "TB8"
      (getAction stW8.actions bW8.actionId).data).bind (fun c => c.size) = some "medium" ∧
    (∃ rb, (processButton envW8 "TB8" stW8 bW8).out = stW8.out ++ [rb] ∧
      rb.size = ButtonSize.medium) ∧
    (commandConfig envW8.rs envW8.activeWb.name "TB8"
      (getAction stW8.actions bW9.actionId).data).bind (fun c => c.size) = some "huge" ∧
    (processButton envW8 "TB8" stW8 bW9).out = stW8.out ∧
    (processButton envW8 "TB8" stW8 bW9).shadow = stW8.shadow ∧
    List.foldl (processButton envW8 "TB8") stW8 [bW8, bW9]
      = List.foldl (processButton envW8 "TB8") (processButton envW8 "TB8" stW8 bW8) [bW9] := by
  have h8 := button_size_handling.1 envW8 "TB8" stW8 bW8 (by decide) (by decide) (by decide)
  have h9 := button_size_handling.1 envW8 "TB8" stW8 bW9 (by decide) (by decide) (by decide)
  have hskip := h9.2.2.2.2 "huge" (by rfl) (by decide)
  exact ⟨rfl, h8.2.2.1 (by rfl), rfl, hskip.1, hskip.2,
    button_size_handling.2 envW8 "TB8" stW8 bW8 [bW9]⟩

/-- C9 counterexample, refuting the claim as stated: two states agreeing
on the active workbench, the main-window toolbars, the action store and
the JSON structure, yet differing in the `isWbLoaded` flag of the current
tab, produce different outcomes (one panel versus none). -/
theorem buildPanels_deterministic_cex :
    sCex9a.activeWb = sCex9b.activeWb ∧
    sCex9a.mwToolbars = sCex9b.mwToolbars ∧
    sCex9a.actions = sCex9b.actions ∧
    sCex9a.ribbonStructure = sCex9b.ribbonStructure ∧
    (buildPanels sCex9a).map (fun t => t.panels.length) = some 1 ∧
    (buildPanels sCex9b).map (fun t => t.panels.length) = some 0 :=
  ⟨rfl, rfl, rfl, rfl, rfl, rfl⟩

/-- C9 (amended): `buildPanels` is a function of the inputs collected in
`buildEnv` (the active workbench, the tab bar and its current index, the
`isWbLoaded` dict, the workbench list, the main-window toolbars, the
action store, the custom-toolbar parameters, the command and icon tables,
the stored JSON structure and the display parameters): two states agreeing
on those produce the same panel list, the same final action store and the
same `isWbLoaded` dict, regardless of every other state component. -/
theorem buildPanels_deterministic :
    ∀ s1 s2 : State, buildEnv s1 = buildEnv s2 →
      buildNewPanels (buildEnv s1) = buildNewPanels (buildEnv s2) ∧
      ((buildPanels s1).isSome ↔ (buildPanels s2).isSome) ∧
      (∀ t1 t2, buildPanels s1 = some t1 → buildPanels s2 = some t2 →
        t1.panels.drop s1.panels.length = t2.panels.drop s2.panels.length ∧
        t1.actions = t2.actions ∧ t1.isWbLoaded = t2.isWbLoaded) := by
  intro s1 s2 h
  have hw : s1.isWbLoaded = s2.isWbLoaded := congrArg BuildEnv.isWbLoaded h
  have htb : s1.tabs = s2.tabs := congrArg BuildEnv.tabs h
  have hci : s1.currentIndex = s2.currentIndex := congrArg BuildEnv.currentIndex h
  have ha : s1.actions = s2.actions := congrArg BuildEnv.actions h
  refine ⟨by rw [h], ?_, ?_⟩
  · simp only [buildPanels, h, hw, htb, hci]
    cases hx : alGet (buildEnv s2).isWbLoaded
        (currentTabName (buildEnv s2).tabs (buildEnv s2).currentIndex) with
    | none => simp [hx]
    | some bb => cases bb <;> simp [hx]
  · intro t1 t2 h1 h2
    rcases buildPanels_cases s1 t1 h1 with ⟨hc1, rfl⟩ | ⟨hc1, rfl⟩ <;>
      rcases buildPanels_cases s2 t2 h2 with ⟨hc2, rfl⟩ | ⟨hc2, rfl⟩
    · exact ⟨by simp [List.drop_length], ha, hw⟩
    · rw [hw, htb, hci, hc2] at hc1
      exact absurd hc1 (by simp)
    · rw [hw, htb, hci, hc2] at hc1
      exact absurd hc1 (by simp)
    · refine ⟨?_, by rw [h], ?_⟩
      · show (s1.panels ++ (buildNewPanels (buildEnv s1)).2).drop s1.panels.length
          = (s2.panels ++ (buildNewPanels (buildEnv s2)).2).drop s2.panels.length
        rw [List.drop_left, List.drop_left, h]
      · show alInsert s1.isWbLoaded (currentTabName s1.tabs s1.currentIndex) true
          = alInsert s2.isWbLoaded (currentTabName s2.tabs s2.currentIndex) true
        rw [hw, htb, hci]

/-- Witness for C9: a state and a copy differing only in components
outside the read set build the same panels. -/
theorem buildPanels_deterministic_witness :
    buildEnv sCex9a = buildEnv s9c ∧
    sCex9a.styleSheet ≠ s9c.styleSheet ∧
    buildPanels sCex9a = some bp9a ∧ buildPanels s9c = some bp9c ∧
    bp9a.panels.drop sCex9a.panels.length = bp9c.panels.drop s9c.panels.length ∧
    bp9a.actions = bp9c.actions ∧ bp9a.isWbLoaded = bp9c.isWbLoaded := by
  have h := (buildPanels_deterministic sCex9a s9c (by rfl)).2.2 bp9a bp9c (by rfl) (by rfl)
  exact ⟨rfl, by decide, rfl, rfl, h.1, h.2.1, h.2.2⟩

end FCRibbon
